import Mathlib

/-
  Verification development for the instruction-set and hardware-state
  abstraction layer of the ROCdbgapi GPU debugger library.

  The definitions below are shallow embeddings of the C++ code in
  src/src/architecture.cpp and src/src/wave.cpp.  Machine integers are
  modelled as Nat with explicit reduction modulo 2^32 or 2^64 where the
  C++ unsigned arithmetic can wrap.  Fatal errors and dbgapi_assert
  failures are modelled as the error case of Except.
-/

set_option maxRecDepth 4096
set_option maxHeartbeats 4000000

namespace ROCdbgapi

/-! ## utils (bit manipulation helpers, from utils.h usage sites) -/

namespace utils

/-- utils::bit_extract (x, lo, hi): bits lo..hi of x, inclusive. -/
def bit_extract (x lo hi : Nat) : Nat := (x >>> lo) % 2 ^ (hi - lo + 1)

/-- utils::bit_mask (lo, hi): mask with bits lo..hi set. -/
def bit_mask (lo hi : Nat) : Nat := (2 ^ (hi - lo + 1) - 1) <<< lo

/-- utils::align_down (x, a): round x down to a multiple of the power of two a. -/
def align_down (x a : Nat) : Nat := x - x % a

/-- utils::bit_count for a 64-bit value: number of set bits. -/
def bit_count (x : Nat) : Nat := (List.range 64).countP (fun i => x.testBit i)

end utils

/-- Reduction modulo 2^32 (uint32_t arithmetic). -/
def wrap32 (x : Nat) : Nat := x % 2 ^ 32

/-- Reduction modulo 2^64 (uint64_t arithmetic). -/
def wrap64 (x : Nat) : Nat := x % 2 ^ 64

/-- uint64_t subtraction with wrap-around, for a b already below 2^64. -/
def sub64 (a b : Nat) : Nat := (a + 2 ^ 64 - b % 2 ^ 64) % 2 ^ 64

/-- uint64_t bitwise complement, for x below 2^64. -/
def not64 (x : Nat) : Nat := (2 ^ 64 - 1) ^^^ x % 2 ^ 64

/-- uint32_t bitwise complement, for x below 2^32. -/
def not32 (x : Nat) : Nat := (2 ^ 32 - 1) ^^^ x % 2 ^ 32

/-- Signed interpretation of a uint64 wrap of an Int expression: the C++
    conversion of an int64_t summand into uint64_t arithmetic. -/
def wrap64i (x : Int) : Nat := (x % (2 ^ 64 : Int)).toNat

/-! ## instruction_t

  An instruction is an immutable byte buffer bound to one architecture.
  The validity flag and decoded size come from the native disassembler
  (amd_comgr), which is external to this library: both are modelled as
  oracle fields carried by the instruction value. -/

structure Instruction where
  bytes : List Nat
  valid : Bool
  size : Nat

namespace Instruction

/-- instruction_t::capacity. -/
def capacity (i : Instruction) : Nat := i.bytes.length

/-- Byte at index k (0 when out of range, never used out of range). -/
def byte (i : Instruction) (k : Nat) : Nat := (i.bytes.get? k).getD 0 % 256

/-- instruction_t::word of index 0: the first 4 bytes read little-endian. -/
def word0 (i : Instruction) : Nat :=
  i.byte 0 + 256 * (i.byte 1 + 256 * (i.byte 2 + 256 * i.byte 3))

/-- The capacity check guarding every fixed-encoding test:
    instruction.capacity () is at least sizeof (instruction.word of 0). -/
def hasWord0 (i : Instruction) : Bool := decide (4 ≤ i.bytes.length)

end Instruction

/-! ## amdgcn_architecture_t encoding helpers and operand fields -/

/-- amdgcn_architecture_t::ssrc0_operand: bits 0-7 of word 0. -/
def ssrc0_operand (i : Instruction) : Nat := utils.bit_extract i.word0 0 7

/-- amdgcn_architecture_t::ssrc1_operand: bits 8-15 of word 0. -/
def ssrc1_operand (i : Instruction) : Nat := utils.bit_extract i.word0 8 15

/-- amdgcn_architecture_t::sdst_operand: bits 16-22 of word 0. -/
def sdst_operand (i : Instruction) : Nat := utils.bit_extract i.word0 16 22

/-- amdgcn_architecture_t::simm16_operand: bits 0-15 of word 0 as int16_t. -/
def simm16_operand (i : Instruction) : Int :=
  let v := utils.bit_extract i.word0 0 15
  if v < 2 ^ 15 then (v : Int) else (v : Int) - 2 ^ 16

/-- amdgcn_architecture_t::encoding_op7: bits 16-22 of word 0. -/
def encoding_op7 (i : Instruction) : Nat := utils.bit_extract i.word0 16 22

/-- amdgcn_architecture_t::is_sopk_encoding for one opcode:
    SOPK is 1011 OP5 SDST7 SIMM16. -/
def is_sopk_encoding1 (op : Nat) (i : Instruction) : Bool :=
  i.hasWord0 &&
    (i.word0 &&& 0xFF800000 == 0xB0000000 ||| (op &&& 0x1F) <<< 23)

/-- amdgcn_architecture_t::is_sop1_encoding for one opcode:
    SOP1 is 10111110 1 SDST7 OP8 SSRC08. -/
def is_sop1_encoding1 (op : Nat) (i : Instruction) : Bool :=
  i.hasWord0 &&
    (i.word0 &&& 0xFF80FF00 == 0xBE800000 ||| (op &&& 0xFF) <<< 8)

/-- amdgcn_architecture_t::is_sop2_encoding for one opcode:
    SOP2 is 10 OP7 SDST7 SSRC18 SSRC08. -/
def is_sop2_encoding1 (op : Nat) (i : Instruction) : Bool :=
  i.hasWord0 &&
    (i.word0 &&& 0xFF800000 == 0x80000000 ||| (op &&& 0x7F) <<< 23)

/-- amdgcn_architecture_t::is_sopp_encoding for one opcode:
    SOPP is 101111111 OP7 SIMM16. -/
def is_sopp_encoding1 (op : Nat) (i : Instruction) : Bool :=
  i.hasWord0 &&
    (i.word0 &&& 0xFFFF0000 == 0xBF800000 ||| (op &&& 0x7F) <<< 16)

/-- Variadic form of is_sopp_encoding (fold of the one-opcode form). -/
def is_sopp_encoding (ops : List Nat) (i : Instruction) : Bool :=
  ops.any (fun op => is_sopp_encoding1 op i)

/-- Variadic form of is_sop1_encoding. -/
def is_sop1_encoding (ops : List Nat) (i : Instruction) : Bool :=
  ops.any (fun op => is_sop1_encoding1 op i)

/-- Variadic form of is_sop2_encoding. -/
def is_sop2_encoding (ops : List Nat) (i : Instruction) : Bool :=
  ops.any (fun op => is_sop2_encoding1 op i)

/-- Variadic form of is_sopk_encoding. -/
def is_sopk_encoding (ops : List Nat) (i : Instruction) : Bool :=
  ops.any (fun op => is_sopk_encoding1 op i)

/-! ## gfx9_architecture_t instruction predicates -/

namespace gfx9

/-- gfx9_architecture_t::is_endpgm: s_endpgm is SOPP opcode 1. -/
def is_endpgm (i : Instruction) : Bool := is_sopp_encoding1 1 i

/-- gfx9_architecture_t::is_branch: s_branch is SOPP opcode 2. -/
def is_branch (i : Instruction) : Bool := is_sopp_encoding1 2 i

/-- Keys of gfx9_architecture_t::cbranch_opcodes_map. -/
def cbranch_opcodes : List Nat := [4, 5, 6, 7, 8, 9, 23, 24, 25, 26]

/-- gfx9_architecture_t::is_cbranch: conditional branches, SOPP opcodes in
    cbranch_opcodes. -/
def is_cbranch (i : Instruction) : Bool :=
  i.hasWord0 && (i.word0 &&& 0xFF800000 == 0xBF800000)
    && cbranch_opcodes.contains (encoding_op7 i)

/-- gfx9_architecture_t::is_cbranch_i_fork: s_cbranch_i_fork is SOPK
    opcode 16 with an even sdst operand. -/
def is_cbranch_i_fork (i : Instruction) : Bool :=
  i.valid && is_sopk_encoding1 16 i && (sdst_operand i &&& 1 == 0)

/-- gfx9_architecture_t::is_cbranch_g_fork: s_cbranch_g_fork is SOP2
    opcode 41 with even ssrc0 and ssrc1 operands. -/
def is_cbranch_g_fork (i : Instruction) : Bool :=
  i.valid && is_sop2_encoding1 41 i && (ssrc0_operand i &&& 1 == 0)
    && (ssrc1_operand i &&& 1 == 0)

/-- gfx9_architecture_t::is_cbranch_join: s_cbranch_join is SOP1 opcode 46. -/
def is_cbranch_join (i : Instruction) : Bool :=
  i.valid && is_sop1_encoding1 46 i

/-- gfx9_architecture_t::is_call: s_call is SOPK opcode 21 with an even
    sdst operand. -/
def is_call (i : Instruction) : Bool :=
  i.valid && is_sopk_encoding1 21 i && (sdst_operand i &&& 1 == 0)

/-- gfx9_architecture_t::is_getpc: s_getpc is SOP1 opcode 28 with an even
    sdst operand. -/
def is_getpc (i : Instruction) : Bool :=
  i.valid && is_sop1_encoding1 28 i && (sdst_operand i &&& 1 == 0)

/-- gfx9_architecture_t::is_setpc: s_setpc is SOP1 opcode 29 with an even
    ssrc0 operand. -/
def is_setpc (i : Instruction) : Bool :=
  i.valid && is_sop1_encoding1 29 i && (ssrc0_operand i &&& 1 == 0)

/-- gfx9_architecture_t::is_swappc: s_swappc is SOP1 opcode 30 with even
    ssrc0 and sdst operands. -/
def is_swappc (i : Instruction) : Bool :=
  i.valid && is_sop1_encoding1 30 i && (ssrc0_operand i &&& 1 == 0)
    && (sdst_operand i &&& 1 == 0)

/-- gfx9_architecture_t::is_trap: s_trap is SOPP opcode 18. -/
def is_trap (i : Instruction) : Bool := is_sopp_encoding1 18 i

/-- gfx9_architecture_t::is_sethalt: s_sethalt is SOPP opcode 13. -/
def is_sethalt (i : Instruction) : Bool := is_sopp_encoding1 13 i

/-- gfx9_architecture_t::is_barrier: s_barrier is SOPP opcode 10. -/
def is_barrier (i : Instruction) : Bool := is_sopp_encoding1 10 i

/-- gfx9_architecture_t::is_sleep: s_sleep is SOPP opcode 14. -/
def is_sleep (i : Instruction) : Bool := is_sopp_encoding1 14 i

/-- gfx9_architecture_t::is_sequential: a valid instruction that is none of
    the control-transfer encodings. -/
def is_sequential (i : Instruction) : Bool :=
  i.valid
    && !(is_sopp_encoding [1, 2, 4, 5, 6, 7, 8, 9, 23, 24, 25, 26] i)
    && !(is_sop1_encoding [29, 30, 46] i)
    && !(is_sop2_encoding [41] i)
    && !(is_sopk_encoding [16, 21] i)

end gfx9

/-! ## gfx11_architecture_t instruction predicates -/

namespace gfx11

/-- gfx11_architecture_t::is_endpgm: s_endpgm is SOPP opcode 48. -/
def is_endpgm (i : Instruction) : Bool := is_sopp_encoding1 48 i

/-- gfx11_architecture_t::is_branch: s_branch is SOPP opcode 32. -/
def is_branch (i : Instruction) : Bool := is_sopp_encoding1 32 i

/-- Keys of gfx11_architecture_t::cbranch_opcodes_map. -/
def cbranch_opcodes : List Nat := [33, 34, 35, 36, 37, 38, 39, 40, 41, 42]

/-- gfx11_architecture_t::is_cbranch: conditional branches, SOPP opcodes in
    cbranch_opcodes. -/
def is_cbranch (i : Instruction) : Bool :=
  i.hasWord0 && (i.word0 &&& 0xFF800000 == 0xBF800000)
    && cbranch_opcodes.contains (encoding_op7 i)

/-- gfx10_architecture_t::is_cbranch_i_fork: fork instructions do not exist
    past gfx9. -/
def is_cbranch_i_fork (_ : Instruction) : Bool := false

/-- gfx10_architecture_t::is_cbranch_g_fork: fork instructions do not exist
    past gfx9. -/
def is_cbranch_g_fork (_ : Instruction) : Bool := false

/-- gfx10_architecture_t::is_cbranch_join: join instructions do not exist
    past gfx9. -/
def is_cbranch_join (_ : Instruction) : Bool := false

/-- gfx11_architecture_t::is_call: s_call is SOPK opcode 20. -/
def is_call (i : Instruction) : Bool := is_sopk_encoding1 20 i

/-- gfx11_architecture_t::is_getpc: s_getpc is SOP1 opcode 71. -/
def is_getpc (i : Instruction) : Bool := is_sop1_encoding1 71 i

/-- gfx11_architecture_t::is_setpc: s_setpc is SOP1 opcode 72. -/
def is_setpc (i : Instruction) : Bool := is_sop1_encoding1 72 i

/-- gfx11_architecture_t::is_swappc: s_swappc is SOP1 opcode 73. -/
def is_swappc (i : Instruction) : Bool := is_sop1_encoding1 73 i

/-- gfx11_architecture_t::is_trap: s_trap is SOPP opcode 16. -/
def is_trap (i : Instruction) : Bool := is_sopp_encoding1 16 i

/-- gfx11_architecture_t::is_sethalt: s_code_end is SOPP opcode 2. -/
def is_sethalt (i : Instruction) : Bool := is_sopp_encoding1 2 i

/-- gfx11_architecture_t::is_barrier: s_barrier is SOPP opcode 61. -/
def is_barrier (i : Instruction) : Bool := is_sopp_encoding1 61 i

/-- gfx11_architecture_t::is_sleep: s_sleep is SOPP opcode 3. -/
def is_sleep (i : Instruction) : Bool := is_sopp_encoding1 3 i

/-- gfx11_architecture_t::is_sequential: a valid instruction that is none of
    the control-transfer encodings of this generation. -/
def is_sequential (i : Instruction) : Bool :=
  i.valid
    && !(is_sopp_encoding [48, 32, 33, 34, 35, 36, 37, 38, 39, 40, 41, 42] i)
    && !(is_sop1_encoding [72, 73] i)
    && !(is_sopk_encoding [20, 22, 23] i)

end gfx11

/-! ## amdgcn_architecture_t::classify_instruction

  The classification cascade is one base-class function dispatching through
  the per-generation virtual instruction predicates; it is modelled as a
  function generic over a record of those predicates. -/

/-- Per-generation bundle of the virtual instruction predicates consulted by
    classify_instruction. -/
structure ArchPredicates where
  is_branch : Instruction → Bool
  is_cbranch : Instruction → Bool
  is_cbranch_i_fork : Instruction → Bool
  is_cbranch_g_fork : Instruction → Bool
  is_cbranch_join : Instruction → Bool
  is_setpc : Instruction → Bool
  is_call : Instruction → Bool
  is_getpc : Instruction → Bool
  is_swappc : Instruction → Bool
  is_endpgm : Instruction → Bool
  is_trap : Instruction → Bool
  is_sethalt : Instruction → Bool
  is_barrier : Instruction → Bool
  is_sleep : Instruction → Bool
  is_sequential : Instruction → Bool

/-- The predicate bundle of gfx9_architecture_t. -/
def gfx9Arch : ArchPredicates :=
  { is_branch := gfx9.is_branch
    is_cbranch := gfx9.is_cbranch
    is_cbranch_i_fork := gfx9.is_cbranch_i_fork
    is_cbranch_g_fork := gfx9.is_cbranch_g_fork
    is_cbranch_join := gfx9.is_cbranch_join
    is_setpc := gfx9.is_setpc
    is_call := gfx9.is_call
    is_getpc := gfx9.is_getpc
    is_swappc := gfx9.is_swappc
    is_endpgm := gfx9.is_endpgm
    is_trap := gfx9.is_trap
    is_sethalt := gfx9.is_sethalt
    is_barrier := gfx9.is_barrier
    is_sleep := gfx9.is_sleep
    is_sequential := gfx9.is_sequential }

/-- The predicate bundle of gfx11_architecture_t. -/
def gfx11Arch : ArchPredicates :=
  { is_branch := gfx11.is_branch
    is_cbranch := gfx11.is_cbranch
    is_cbranch_i_fork := gfx11.is_cbranch_i_fork
    is_cbranch_g_fork := gfx11.is_cbranch_g_fork
    is_cbranch_join := gfx11.is_cbranch_join
    is_setpc := gfx11.is_setpc
    is_call := gfx11.is_call
    is_getpc := gfx11.is_getpc
    is_swappc := gfx11.is_swappc
    is_endpgm := gfx11.is_endpgm
    is_trap := gfx11.is_trap
    is_sethalt := gfx11.is_sethalt
    is_barrier := gfx11.is_barrier
    is_sleep := gfx11.is_sleep
    is_sequential := gfx11.is_sequential }

/-- amd_dbgapi_instruction_kind_t values produced by classify_instruction. -/
inductive InstructionKind where
  | directBranch
  | directBranchConditional
  | indirectBranchConditionalRegisterPair
  | special
  | indirectBranchRegisterPair
  | directCallRegisterPair
  | indirectCallRegisterPairs
  | terminate
  | trap
  | halt
  | barrier
  | sleep
  | sequential
  | unknown
deriving DecidableEq, Repr

/-- amdgcn_architecture_t::classify_instruction, restricted to the returned
    instruction kind (the structured operand information is not modelled).
    The cascade order matches the source. -/
def classify_instruction (a : ArchPredicates) (i : Instruction) :
    InstructionKind :=
  if a.is_branch i then .directBranch
  else if a.is_cbranch i || a.is_cbranch_i_fork i then
    .directBranchConditional
  else if a.is_cbranch_g_fork i then .indirectBranchConditionalRegisterPair
  else if a.is_cbranch_join i then .special
  else if a.is_setpc i then .indirectBranchRegisterPair
  else if a.is_call i then .directCallRegisterPair
  else if a.is_swappc i then .indirectCallRegisterPairs
  else if a.is_endpgm i then .terminate
  else if a.is_trap i then .trap
  else if a.is_sethalt i && (utils.bit_extract i.word0 0 15 &&& 0x1 != 0) then
    .halt
  else if a.is_barrier i then .barrier
  else if a.is_sleep i then .sleep
  else if a.is_sequential i then .sequential
  else .unknown

/-! ## gfx9_architecture_t::control_stack_iterate and the CWSR record
  geometry it consults (save-area layout of the gfx9 cwsr_record_t). -/

/-- gfx9 compute_relaunch_is_event: bit 30 of a control stack word. -/
def compute_relaunch_is_event (relaunch : Nat) : Nat :=
  utils.bit_extract relaunch 30 30

/-- gfx9 compute_relaunch_is_state: bit 31 of a control stack word. -/
def compute_relaunch_is_state (relaunch : Nat) : Nat :=
  utils.bit_extract relaunch 31 31

namespace gfx9

/-- gfx9 compute_relaunch_state_payload_vgprs: bits 0-5 of a state word. -/
def compute_relaunch_state_payload_vgprs (s : Nat) : Nat :=
  utils.bit_extract s 0 5

/-- gfx9 compute_relaunch_state_payload_sgprs: bits 6-8 of a state word. -/
def compute_relaunch_state_payload_sgprs (s : Nat) : Nat :=
  utils.bit_extract s 6 8

/-- gfx9 compute_relaunch_state_payload_lds_size: bits 9-17 of a state word. -/
def compute_relaunch_state_payload_lds_size (s : Nat) : Nat :=
  utils.bit_extract s 9 17

/-- gfx9 compute_relaunch_wave_payload_first_wave: bit 17 of a wave word. -/
def compute_relaunch_wave_payload_first_wave (w : Nat) : Nat :=
  utils.bit_extract w 17 17

/-- gfx9_architecture_t::cwsr_record_t::vgpr_count: vgprs are allocated in
    blocks of 4 registers. -/
def vgpr_count (relaunch_state : Nat) : Nat :=
  (compute_relaunch_state_payload_vgprs relaunch_state + 1) * 4

/-- gfx9_architecture_t::cwsr_record_t::sgpr_count: sgprs are allocated in
    blocks of 16 registers, minus the 16 ttmps saved elsewhere. -/
def sgpr_count (relaunch_state : Nat) : Nat :=
  (compute_relaunch_state_payload_sgprs relaunch_state + 1) * 16 - 16

/-- gfx9_architecture_t::cwsr_record_t::lds_size: the lds payload counts
    blocks of 128 32-bit words. -/
def lds_size (relaunch_state : Nat) : Nat :=
  compute_relaunch_state_payload_lds_size relaunch_state * 128 * 4

/-- gfx9_architecture_t::cwsr_record_t::is_first_wave. -/
def is_first_wave (relaunch_wave : Nat) : Bool :=
  compute_relaunch_wave_payload_first_wave relaunch_wave != 0

/-- gfx9_architecture_t::cwsr_record_t::register_address evaluated at
    first_vgpr_64: starting from the context save address, subtract the
    lds block (first wave only), the 16-entry ttmp block, the 16-entry
    hwreg block, the sgpr block, and the vgpr block (64 lanes of 4 bytes
    per vgpr).  The vgpr branch applies because vgpr_count is positive. -/
def first_vgpr_address (relaunch_wave relaunch_state
    context_save_address : Nat) : Nat :=
  let save_area_addr :=
    if is_first_wave relaunch_wave then
      sub64 context_save_address (lds_size relaunch_state)
    else context_save_address
  let ttmps_addr := sub64 save_area_addr (16 * 4)
  let hwregs_addr := sub64 ttmps_addr (16 * 4)
  let sgprs_addr := sub64 hwregs_addr (sgpr_count relaunch_state * 4)
  sub64 sgprs_addr (vgpr_count relaunch_state * (4 * 64))

/-- One iteration of the gfx9_architecture_t::control_stack_iterate loop
    body, acting on the accumulator (state, last_wave_area, wave_count). -/
def control_stack_step (acc : Nat × Nat × Nat) (relaunch : Nat) :
    Nat × Nat × Nat :=
  let (state, last_wave_area, wave_count) := acc
  if compute_relaunch_is_event relaunch != 0 then
    (state, last_wave_area, wave_count)
  else if compute_relaunch_is_state relaunch != 0 then
    (relaunch, last_wave_area, wave_count)
  else
    (state,
     first_vgpr_address relaunch state (sub64 last_wave_area 64),
     wave_count + 1)

/-- The accumulator after walking the control stack from its third word
    (the loop of control_stack_iterate before the final consistency
    check). -/
def control_stack_walk (control_stack : List Nat)
    (wave_area_address : Nat) : Nat × Nat × Nat :=
  (control_stack.drop 2).foldl control_stack_step (0, wave_area_address, 0)

/-- gfx9_architecture_t::control_stack_iterate: walk the stack from its
    third word (the first two words are PM4 packets), classify each word
    as event, state or wave descriptor, and return the wave count; after
    the walk the running last_wave_area cursor must point to the bottom of
    the wave save area, otherwise the walk ends in the fatal_error path. -/
def control_stack_iterate (control_stack : List Nat)
    (wave_area_address wave_area_size : Nat) : Except String Nat :=
  let fin := control_stack_walk control_stack wave_area_address
  if fin.2.1 == sub64 wave_area_address wave_area_size then .ok fin.2.2
  else .error "Corrupted control stack or wave save area"

end gfx9

/-! ## Register file and wave register state

  Only the registers touched by the embedded operations are modelled.
  Each 32-bit register is one slot of the register function; the 64-bit
  program counter is a separate field.  amdgpu_regnum_t values that two
  slots apart form an architectural pair are related by Reg.next. -/

inductive Reg where
  | sgpr (i : Nat)
  | flatScratchLo
  | flatScratchHi
  | xnackMaskLo
  | xnackMaskHi
  | vccLo
  | vccHi
  | m0
  | execLo
  | execHi
  | nullReg
  | ttmp (i : Nat)
  | status
  | mode
  | trapsts
deriving DecidableEq, Repr

/-- Enum successor for the register pairs the embedded code reads and
    writes as regnum plus one; pairs outside the modelled ranges are not
    exercised by any theorem below. -/
def Reg.next : Reg → Reg
  | .sgpr i => .sgpr (i + 1)
  | .flatScratchLo => .flatScratchHi
  | .xnackMaskLo => .xnackMaskHi
  | .vccLo => .vccHi
  | .execLo => .execHi
  | .ttmp i => .ttmp (i + 1)
  | r => r

/-- Wave state values of amd_dbgapi_wave_state_t. -/
inductive WaveState where
  | run
  | singleStep
  | stop
deriving DecidableEq, Repr

/-- A suspended wave as seen through wave_t::read_register and
    wave_t::write_register: the 32-bit registers of the context save area,
    the 64-bit pc register, and the ambient inputs of the simulated
    operations (lane count, parking policy and park instruction address
    from the queue, client-visible state, terminated flag for
    wave_t::terminate). -/
structure SimWave where
  reg : Reg → Nat
  pc : Nat
  laneCount : Nat
  parkStoppedWaves : Bool
  parkAddr : Nat
  mState : WaveState
  terminated : Bool

namespace SimWave

/-- Store a 32-bit register. -/
def setReg (w : SimWave) (r : Reg) (v : Nat) : SimWave :=
  { w with reg := fun x => if x = r then v else w.reg x }

/-- wave_t::read_register of exec_64: an 8-byte read covering the exec_lo
    and exec_hi hardware register slots. -/
def read_exec64 (w : SimWave) : Nat :=
  w.reg .execLo ||| w.reg .execHi <<< 32

/-- wave_t::write_register of exec_64. -/
def write_exec64 (w : SimWave) (v : Nat) : SimWave :=
  (w.setReg .execLo (wrap32 v)).setReg .execHi (wrap32 (v >>> 32))

/-- wave_t::read_register of vcc_64: an 8-byte read covering the vcc_lo
    and vcc_hi aliased scalar register slots. -/
def read_vcc64 (w : SimWave) : Nat :=
  w.reg .vccLo ||| w.reg .vccHi <<< 32

/-- wave_t::write_register of vcc_64. -/
def write_vcc64 (w : SimWave) (v : Nat) : SimWave :=
  (w.setReg .vccLo (wrap32 v)).setReg .vccHi (wrap32 (v >>> 32))

/-- amdgcn_architecture_t::read_pseudo_register of csp: bits 29-31 of the
    mode register. -/
def read_csp (w : SimWave) : Nat := utils.bit_extract (w.reg .mode) 29 31

/-- amdgcn_architecture_t::write_pseudo_register of csp: replace bits
    29-31 of the mode register (uint32 shift discards higher bits). -/
def write_csp (w : SimWave) (v : Nat) : SimWave :=
  w.setReg .mode
    ((w.reg .mode &&& not32 (utils.bit_mask 29 31)) ||| wrap32 (v <<< 29))

end SimWave

/-! ## Hardware status and ttmp6 bit layout (gfx9 family constants) -/

def sq_wave_status_scc_mask : Nat := 1 <<< 0
def sq_wave_status_priv_mask : Nat := 1 <<< 5
def sq_wave_status_execz_mask : Nat := 1 <<< 9
def sq_wave_status_vccz_mask : Nat := 1 <<< 10
def sq_wave_status_halt_mask : Nat := 1 <<< 13
def sq_wave_status_skip_export_mask : Nat := 1 <<< 18
def sq_wave_status_cond_dbg_user_mask : Nat := 1 <<< 20
def sq_wave_status_cond_dbg_sys_mask : Nat := 1 <<< 21

def sq_wave_mode_debug_en_mask : Nat := 1 <<< 11

def ttmp6_wave_stopped_mask : Nat := 1 <<< 30
def ttmp6_saved_status_halt_mask : Nat := 1 <<< 29
def ttmp6_saved_trap_id_shift : Nat := 25
def ttmp6_saved_trap_id_mask : Nat := utils.bit_mask 25 28

/-- ttmp6_saved_trap_id: the 4-bit saved trap id, when it is non-zero. -/
def ttmp6_saved_trap_id (x : Nat) : Option Nat :=
  let trap_id := utils.bit_extract x 25 28
  if trap_id != 0 then some trap_id else none

/-- amdgcn_architecture_t::minimum_instruction_alignment: derived from the
    read-only low-bit mask of the pc register (bits 0-1 are not wired). -/
def minimum_instruction_alignment : Nat := utils.bit_mask 0 1 + 1

/-! ## gfx9_architecture_t::scalar_operand_to_regnum (priv = false) -/

namespace gfx9

/-- gfx9_architecture_t::scalar_operand_to_regnum with priv false: scalar
    operands 0-101 are sgprs, 108-123 (the ttmps) read as the null
    register when not privileged, 102-107 are the aliased register pairs,
    124 is m0 and 126-127 the exec halves. -/
def scalar_operand_to_regnum (operand : Nat) : Option Reg :=
  if operand ≤ 101 then some (.sgpr operand)
  else if 108 ≤ operand && operand ≤ 123 then some .nullReg
  else
    match operand with
    | 102 => some .flatScratchLo
    | 103 => some .flatScratchHi
    | 104 => some .xnackMaskLo
    | 105 => some .xnackMaskHi
    | 106 => some .vccLo
    | 107 => some .vccHi
    | 124 => some .m0
    | 126 => some .execLo
    | 127 => some .execHi
    | _ => none

/-- Condition codes of conditional branches. -/
inductive CbranchCond where
  | scc0 | scc1 | execz | execnz | vccz | vccnz
  | cdbgsys | cdbguser | cdbgsysOrUser | cdbgsysAndUser
deriving DecidableEq, Repr

/-- gfx9_architecture_t::cbranch_condition_code via cbranch_opcodes_map. -/
def cbranch_condition_code (i : Instruction) : Option CbranchCond :=
  match encoding_op7 i with
  | 4 => some .scc0
  | 5 => some .scc1
  | 6 => some .vccz
  | 7 => some .vccnz
  | 8 => some .execz
  | 9 => some .execnz
  | 23 => some .cdbgsys
  | 24 => some .cdbguser
  | 25 => some .cdbgsysOrUser
  | 26 => some .cdbgsysAndUser
  | _ => none

/-! ## amdgcn_architecture_t::is_branch_taken, branch_target,
  can_simulate, simulate_instruction, simulate_trap_handler and simulate,
  instantiated with the gfx9 virtual overrides. -/

/-- The 64-bit lane mask read from a scalar register pair, as assembled by
    is_branch_taken and simulate_instruction for the fork instructions. -/
def fork_mask (w : SimWave) (r : Reg) : Nat :=
  w.reg r.next <<< 32 ||| w.reg r

/-- amdgcn_architecture_t::is_branch_taken (gfx9 instantiation):
    conditional branches evaluate a status bit; fork instructions compare
    the pass and fail lane masks against exec, tie-broken on the set-bit
    counts; join compares csp to the saved stack pointer; branch, call,
    setpc and swappc are always taken. -/
def is_branch_taken (w : SimWave) (i : Instruction) : Except String Bool :=
  if is_cbranch i then
    let status_reg := w.reg .status
    match cbranch_condition_code i with
    | some .scc0 => .ok (status_reg &&& sq_wave_status_scc_mask == 0)
    | some .scc1 => .ok (status_reg &&& sq_wave_status_scc_mask != 0)
    | some .execz => .ok (status_reg &&& sq_wave_status_execz_mask != 0)
    | some .execnz => .ok (status_reg &&& sq_wave_status_execz_mask == 0)
    | some .vccz => .ok (status_reg &&& sq_wave_status_vccz_mask != 0)
    | some .vccnz => .ok (status_reg &&& sq_wave_status_vccz_mask == 0)
    | some .cdbgsys =>
      .ok (status_reg &&& sq_wave_status_cond_dbg_sys_mask != 0)
    | some .cdbguser =>
      .ok (status_reg &&& sq_wave_status_cond_dbg_user_mask != 0)
    | some .cdbgsysOrUser =>
      .ok (status_reg
          &&& (sq_wave_status_cond_dbg_sys_mask
              ||| sq_wave_status_cond_dbg_user_mask) != 0)
    | some .cdbgsysAndUser =>
      .ok (status_reg
            &&& (sq_wave_status_cond_dbg_sys_mask
                ||| sq_wave_status_cond_dbg_user_mask)
          == sq_wave_status_cond_dbg_sys_mask
              ||| sq_wave_status_cond_dbg_user_mask)
    | none => .error "illegal instruction: invalid cbranch_cond_t"
  else if is_cbranch_i_fork i || is_cbranch_g_fork i then
    if w.laneCount != 64 then .error "assert: wave is not 64 lanes" else
    match scalar_operand_to_regnum
        (if is_cbranch_i_fork i then sdst_operand i else ssrc0_operand i)
      with
    | none => .error "assert: no regnum for operand"
    | some r =>
      let mask := fork_mask w r
      let exec := w.read_exec64
      let mask_pass := mask &&& exec
      let mask_fail := not64 mask &&& exec
      if mask_pass == exec then .ok true
      else if mask_fail == exec then .ok false
      else .ok (utils.bit_count mask_pass ≤ utils.bit_count mask_fail)
  else if is_cbranch_join i then
    match scalar_operand_to_regnum (ssrc0_operand i) with
    | none => .error "assert: no regnum for operand"
    | some r => .ok (w.read_csp != w.reg r)
  else if is_branch i || is_call i || is_setpc i || is_swappc i then
    .ok true
  else .error "not a branch instruction"

/-- amdgcn_architecture_t::branch_target (gfx9 instantiation): pc-relative
    for the direct forms (signed 16-bit word offset scaled by 4), a
    register-pair read for the indirect forms, the stack slot below csp
    for join; the result is always aligned down to the minimum instruction
    alignment. -/
def branch_target (w : SimWave) (pc : Nat) (i : Instruction) :
    Except String Nat :=
  if !i.valid then .error "assert: invalid instruction" else
  let finish : Nat → Except String Nat := fun target =>
    .ok (utils.align_down target minimum_instruction_alignment)
  if is_branch i || is_call i || is_cbranch i || is_cbranch_i_fork i then
    finish (wrap64i ((pc : Int) + (i.size : Int) + simm16_operand i * 4))
  else if is_cbranch_g_fork i then
    match scalar_operand_to_regnum (ssrc1_operand i) with
    | none => .error "assert: no regnum for operand"
    | some r => finish (w.reg r.next <<< 32 ||| w.reg r)
  else if is_setpc i || is_swappc i then
    match scalar_operand_to_regnum (ssrc0_operand i) with
    | none => .error "assert: no regnum for operand"
    | some r => finish (w.reg r.next <<< 32 ||| w.reg r)
  else if is_cbranch_join i then
    let csp := wrap32 (w.read_csp + (2 ^ 32 - 1))
    let idx := wrap32 (csp * 4)
    finish (w.reg (.sgpr (idx + 3)) <<< 32 ||| w.reg (.sgpr (idx + 2)))
  else .error "not a branch instruction"

/-- amdgcn_architecture_t::can_simulate (gfx9 instantiation): only
    instructions with a known register source or destination can be
    simulated (the second arm repeats is_cbranch_i_fork as in the
    source, so is_cbranch_g_fork falls through to the final arm and is
    not simulatable). -/
def can_simulate (i : Instruction) : Bool :=
  if is_getpc i || is_call i || is_cbranch_i_fork i then
    (scalar_operand_to_regnum (sdst_operand i)).isSome
  else if is_setpc i || is_cbranch_i_fork i then
    (scalar_operand_to_regnum (ssrc0_operand i)).isSome
  else if is_swappc i then
    (scalar_operand_to_regnum (ssrc0_operand i)).isSome
      && (scalar_operand_to_regnum (sdst_operand i)).isSome
  else
    is_branch i || is_cbranch i || is_cbranch_join i || is_endpgm i

/-- wave_t::terminate, as visible at this layer: the wave is redirected to
    an immutable s_endpgm instruction, hidden and resumed; modelled by the
    terminated flag. -/
def terminate (w : SimWave) : SimWave := { w with terminated := true }

/-- amdgcn_architecture_t::simulate_instruction (gfx9 instantiation):
    mutate the registers per instruction kind (stack push for the fork
    split case, stack pop for a taken join, return-address write for call,
    getpc and swappc, wave termination for endpgm), then compute the next
    pc: fall-through when sequential or not taken, the branch target
    otherwise; termination yields no next pc. -/
def simulate_instruction (w : SimWave) (pc : Nat) (i : Instruction) :
    Except String (SimWave × Option Nat) :=
  if pc % minimum_instruction_alignment != 0 then
    .error "assert: pc is not aligned"
  else
    let step : Except String SimWave :=
      if is_branch i || is_cbranch i || is_setpc i then
        .ok w
      else if is_endpgm i then
        .ok (terminate w)
      else if is_cbranch_i_fork i || is_cbranch_g_fork i then
        if w.laneCount != 64 then .error "assert: wave is not 64 lanes"
        else
          match scalar_operand_to_regnum
              (if is_cbranch_i_fork i then sdst_operand i
               else ssrc0_operand i) with
          | none => .error "assert: no regnum for operand"
          | some mr =>
            let mask := fork_mask w mr
            let exec := w.read_exec64
            let mask_pass := mask &&& exec
            let mask_fail := not64 mask &&& exec
            if mask_pass != exec && mask_fail != exec then
              match is_branch_taken w i with
              | .error e => .error e
              | .ok taken =>
                match
                  (if taken then Except.ok (wrap64 (pc + i.size))
                   else branch_target w pc i) with
                | .error e => .error e
                | .ok saved_pc =>
                  let saved_exec_lo :=
                    wrap32 (if taken then mask_fail else mask_pass)
                  let saved_exec_hi :=
                    wrap32 ((if taken then mask_fail else mask_pass) >>> 32)
                  let saved_pc_lo := wrap32 saved_pc
                  let saved_pc_hi := wrap32 (saved_pc >>> 32)
                  let csp := w.read_csp
                  let idx := wrap32 (csp * 4)
                  let w1 := w.setReg (.sgpr (idx + 0)) saved_exec_lo
                  let w1 := w1.setReg (.sgpr (idx + 1)) saved_exec_hi
                  let w1 := w1.setReg (.sgpr (idx + 2)) saved_pc_lo
                  let w1 := w1.setReg (.sgpr (idx + 3)) saved_pc_hi
                  let w1 := w1.write_csp (csp + 1)
                  .ok (w1.write_exec64 (if taken then mask_pass else mask_fail))
            else
              .ok w
      else if is_cbranch_join i then
        if w.laneCount != 64 then .error "assert: wave is not 64 lanes"
        else
          match is_branch_taken w i with
          | .error e => .error e
          | .ok taken =>
            if taken then
              let csp := wrap32 (w.read_csp + (2 ^ 32 - 1))
              let idx := wrap32 (csp * 4)
              let exec :=
                w.reg (.sgpr (idx + 1)) <<< 32 ||| w.reg (.sgpr (idx + 0))
              let w1 := w.write_csp csp
              .ok (w1.write_exec64 exec)
            else
              .ok w
      else if is_call i || is_getpc i || is_swappc i then
        match scalar_operand_to_regnum (sdst_operand i) with
        | none => .error "assert: no regnum for operand"
        | some dr =>
          let sdst_value := wrap64 (pc + i.size)
          let sdst_lo := wrap32 sdst_value
          let sdst_hi := wrap32 (sdst_value >>> 32)
          .ok ((w.setReg dr sdst_lo).setReg dr.next sdst_hi)
      else
        .error "assert: cannot simulate instruction"
    match step with
    | .error e => .error e
    | .ok w' =>
      if is_endpgm i then
        .ok (w', none)
      else if is_sequential i then
        .ok (w', some (wrap64 (pc + i.size)))
      else
        match is_branch_taken w' i with
        | .error e => .error e
        | .ok taken =>
          if !taken then
            .ok (w', some (wrap64 (pc + i.size)))
          else
            match branch_target w' pc i with
            | .error e => .error e
            | .ok target => .ok (w', some target)

/-- amdgcn_architecture_t::save_pc_for_park: pc bits 0-31 go to ttmp7 and
    pc bits 32-47 to ttmp11 bits 7-22. -/
def save_pc_for_park (w : SimWave) (pc : Nat) : SimWave :=
  let w1 := w.setReg (.ttmp 7) (utils.bit_extract pc 0 31)
  let ttmp11 := w1.reg (.ttmp 11)
  w1.setReg (.ttmp 11)
    ((ttmp11 &&& not32 (utils.bit_mask 7 22))
      ||| wrap32 (utils.bit_extract pc 32 47 <<< 7))

/-- amdgcn_architecture_t::saved_parked_pc: reassemble the parked pc from
    ttmp7 and ttmp11 bits 7-22. -/
def saved_parked_pc (w : SimWave) : Nat :=
  w.reg (.ttmp 7) ||| utils.bit_extract (w.reg (.ttmp 11)) 7 22 <<< 32

/-- amdgcn_architecture_t::simulate_trap_handler: set ttmp6.wave_stopped,
    save status.halt and the trap id in ttmp6, park the wave when the
    architecture parks stopped waves (saving the real pc out of band and
    substituting the park instruction address), then set status.halt. -/
def simulate_trap_handler (w : SimWave) (pc : Nat) (trap_id : Option Nat) :
    Except String SimWave :=
  if pc % minimum_instruction_alignment != 0 then
    .error "assert: pc is not aligned"
  else
    let status_reg := w.reg .status
    let ttmp6 := w.reg (.ttmp 6)
    let ttmp6 := ttmp6
      &&& not32 (ttmp6_saved_status_halt_mask ||| ttmp6_saved_trap_id_mask)
    let ttmp6 := ttmp6 ||| ttmp6_wave_stopped_mask
    let ttmp6 :=
      match trap_id with
      | some id =>
        ttmp6 ||| (wrap32 (id <<< ttmp6_saved_trap_id_shift)
          &&& ttmp6_saved_trap_id_mask)
      | none => ttmp6
    let ttmp6 :=
      if status_reg &&& sq_wave_status_halt_mask != 0 then
        ttmp6 ||| ttmp6_saved_status_halt_mask
      else ttmp6
    let w1 := w.setReg (.ttmp 6) ttmp6
    let (w2, pc2) :=
      if w.parkStoppedWaves then (save_pc_for_park w1 pc, w.parkAddr)
      else (w1, pc)
    let w3 := { w2 with pc := pc2 }
    .ok (w3.setReg .status (status_reg ||| sq_wave_status_halt_mask))

/-- amdgcn_architecture_t::simulate: asserts the wave is single-stepping
    and the instruction simulatable; a hardware-halted wave is not
    simulated (no mutation); otherwise the instruction effect is applied
    and, when execution continues, trap-handler entry is synthesized at
    the new pc with no trap id. -/
def simulate (w : SimWave) (pc : Nat) (i : Instruction) :
    Except String (Bool × SimWave) :=
  if w.mState != .singleStep then
    .error "assert: wave must be single-stepping to simulate instructions"
  else if !can_simulate i then
    .error "assert: cannot simulate instruction"
  else
    let status_reg := w.reg .status
    if status_reg &&& sq_wave_status_halt_mask != 0 then
      .ok (false, w)
    else
      match simulate_instruction w pc i with
      | .error e => .error e
      | .ok (w', new_pc) =>
        match new_pc with
        | some npc =>
          match simulate_trap_handler w' npc none with
          | .error e => .error e
          | .ok w2 => .ok (true, w2)
        | none => .ok (true, w')

end gfx9

/-! ## amdgcn_architecture_t::write_pseudo_register for the 64-bit EXEC
  and VCC pseudo registers -/

/-- Overwrite byte index i of a 64-bit value. -/
def setByte64 (x i b : Nat) : Nat :=
  (x &&& not64 (0xFF <<< (8 * i))) ||| (b % 256) <<< (8 * i)

/-- The memcpy of value bytes into a 64-bit value at a byte offset. -/
def memcpy_bytes (x offset : Nat) (value : List Nat) : Nat :=
  match value with
  | [] => x
  | b :: rest => memcpy_bytes (setByte64 x offset b) (offset + 1) rest

/-- amdgcn_architecture_t::write_pseudo_register, pseudo_exec_64 and
    pseudo_vcc_64 arm: read the underlying real register pair, overlay
    the written bytes, update the status.execz or status.vccz zero flag
    from the resulting 64-bit value, then store status and the real
    register pair. -/
def write_pseudo_exec_vcc (w : SimWave) (isExec : Bool) (offset : Nat)
    (value : List Nat) : Except String SimWave :=
  if value.length == 0 || offset + value.length > 8 then
    .error "assert: write_pseudo_register is out of bounds"
  else if w.laneCount != 64 then .error "assert: wave is not 64 lanes"
  else
    let base_reg := if isExec then w.read_exec64 else w.read_vcc64
    let status_mask :=
      if isExec then sq_wave_status_execz_mask else sq_wave_status_vccz_mask
    let status_reg := w.reg .status
    let base' := memcpy_bytes base_reg offset value
    let status' := (status_reg &&& not32 status_mask)
      ||| (if base' == 0 then status_mask else 0)
    let w1 := w.setReg .status status'
    .ok (if isExec then w1.write_exec64 base' else w1.write_vcc64 base')

/-! ## Hardware trap status (trapsts) and mode exception-enable bit
  layout (gfx9 family constants) -/

def sq_wave_trapsts_excp_invalid_mask : Nat := 1 <<< 0
def sq_wave_trapsts_excp_input_denorm_mask : Nat := 1 <<< 1
def sq_wave_trapsts_excp_div0_mask : Nat := 1 <<< 2
def sq_wave_trapsts_excp_overflow_mask : Nat := 1 <<< 3
def sq_wave_trapsts_excp_underflow_mask : Nat := 1 <<< 4
def sq_wave_trapsts_excp_inexact_mask : Nat := 1 <<< 5
def sq_wave_trapsts_excp_int_div0_mask : Nat := 1 <<< 6
def sq_wave_trapsts_excp_addr_watch0_mask : Nat := 1 <<< 7
def sq_wave_trapsts_excp_mem_viol_mask : Nat := 1 <<< 8
def sq_wave_trapsts_illegal_inst_mask : Nat := 1 <<< 11
def sq_wave_trapsts_excp_hi_addr_watch1_mask : Nat := 1 <<< 12
def sq_wave_trapsts_excp_hi_addr_watch2_mask : Nat := 1 <<< 13
def sq_wave_trapsts_excp_hi_addr_watch3_mask : Nat := 1 <<< 14
def sq_wave_trapsts_xnack_error_mask : Nat := 1 <<< 28

def sq_wave_mode_excp_en_invalid_mask : Nat := 1 <<< 12
def sq_wave_mode_excp_en_input_denorm_mask : Nat := 1 <<< 13
def sq_wave_mode_excp_en_div0_mask : Nat := 1 <<< 14
def sq_wave_mode_excp_en_overflow_mask : Nat := 1 <<< 15
def sq_wave_mode_excp_en_underflow_mask : Nat := 1 <<< 16
def sq_wave_mode_excp_en_inexact_mask : Nat := 1 <<< 17
def sq_wave_mode_excp_en_int_div0_mask : Nat := 1 <<< 18
def sq_wave_mode_excp_en_addr_watch_mask : Nat := 1 <<< 19

/-! ## amdgcn_architecture_t::exception_mask_t -/

namespace exception_mask

def invalid : Nat := 1 <<< 0
def input_denorm : Nat := 1 <<< 1
def float_div0 : Nat := 1 <<< 2
def overflow : Nat := 1 <<< 3
def underflow : Nat := 1 <<< 4
def inexact : Nat := 1 <<< 5
def int_div0 : Nat := 1 <<< 6
def mem_viol : Nat := 1 <<< 7
def illegal_inst : Nat := 1 <<< 8
def addr_watch0 : Nat := 1 <<< 9
def addr_watch1 : Nat := 1 <<< 10
def addr_watch2 : Nat := 1 <<< 11
def addr_watch3 : Nat := 1 <<< 12
def xnack_error : Nat := 1 <<< 13
def wave_begin : Nat := 1 <<< 14
def wave_end : Nat := 1 <<< 15
def trap_after_inst : Nat := 1 <<< 16
def host_trap : Nat := 1 <<< 17

end exception_mask

/-! ## Client stop-reason taxonomy -/

/-- Modelled from the spec: the client-visible stop-reason taxonomy is a
    bitset of distinct single-bit flags (breakpoint, watchpoint,
    single-step, floating-point and integer exceptions, debug, assert and
    generic traps, memory violation, address error, illegal instruction).
    The public header defining the numeric values is not part of this
    source snapshot, so each flag is assigned a distinct bit here; only
    distinctness is relied upon. -/
def stop_reason_breakpoint : Nat := 1 <<< 0

def stop_reason_watchpoint : Nat := 1 <<< 1
def stop_reason_single_step : Nat := 1 <<< 2
def stop_reason_fp_input_denormal : Nat := 1 <<< 3
def stop_reason_fp_divide_by_0 : Nat := 1 <<< 4
def stop_reason_fp_overflow : Nat := 1 <<< 5
def stop_reason_fp_underflow : Nat := 1 <<< 6
def stop_reason_fp_inexact : Nat := 1 <<< 7
def stop_reason_fp_invalid_operation : Nat := 1 <<< 8
def stop_reason_int_divide_by_0 : Nat := 1 <<< 9
def stop_reason_debug_trap : Nat := 1 <<< 10
def stop_reason_assert_trap : Nat := 1 <<< 11
def stop_reason_trap : Nat := 1 <<< 12
def stop_reason_memory_violation : Nat := 1 <<< 13
def stop_reason_address_error : Nat := 1 <<< 14
def stop_reason_illegal_instruction : Nat := 1 <<< 15

/-- Modelled from the spec: the fatal (non-resumable) stop reasons are
    the memory-violation, address-error and illegal-instruction classes;
    every other stop reason is resumable.  wave_t::resumable_stop_reason_mask
    is declared in a header that is not part of this source snapshot; as in
    the source, the mask is the 32-bit complement of the fatal reasons. -/
def resumable_stop_reason_mask : Nat :=
  not32 (stop_reason_memory_violation ||| stop_reason_address_error
    ||| stop_reason_illegal_instruction)

/-! ## amdgcn_architecture_t exception translation -/

/-- amdgcn_architecture_t::signaled_exceptions: decode the trapsts
    exception flags (maskable flags only when the matching mode.excp_en
    bit is set) into the exception_mask_t bitset. -/
def signaled_exceptions (hw : SimWave) : Nat :=
  let trapsts := hw.reg .trapsts
  let mode_reg := hw.reg .mode
  let e : Nat := 0
  let e := if trapsts &&& sq_wave_trapsts_excp_invalid_mask ≠ 0
      ∧ mode_reg &&& sq_wave_mode_excp_en_invalid_mask ≠ 0 then
    e ||| exception_mask.invalid else e
  let e := if trapsts &&& sq_wave_trapsts_excp_input_denorm_mask ≠ 0
      ∧ mode_reg &&& sq_wave_mode_excp_en_input_denorm_mask ≠ 0 then
    e ||| exception_mask.input_denorm else e
  let e := if trapsts &&& sq_wave_trapsts_excp_div0_mask ≠ 0
      ∧ mode_reg &&& sq_wave_mode_excp_en_div0_mask ≠ 0 then
    e ||| exception_mask.float_div0 else e
  let e := if trapsts &&& sq_wave_trapsts_excp_overflow_mask ≠ 0
      ∧ mode_reg &&& sq_wave_mode_excp_en_overflow_mask ≠ 0 then
    e ||| exception_mask.overflow else e
  let e := if trapsts &&& sq_wave_trapsts_excp_underflow_mask ≠ 0
      ∧ mode_reg &&& sq_wave_mode_excp_en_underflow_mask ≠ 0 then
    e ||| exception_mask.underflow else e
  let e := if trapsts &&& sq_wave_trapsts_excp_inexact_mask ≠ 0
      ∧ mode_reg &&& sq_wave_mode_excp_en_inexact_mask ≠ 0 then
    e ||| exception_mask.inexact else e
  let e := if trapsts &&& sq_wave_trapsts_excp_int_div0_mask ≠ 0
      ∧ mode_reg &&& sq_wave_mode_excp_en_int_div0_mask ≠ 0 then
    e ||| exception_mask.int_div0 else e
  let e := if trapsts &&& sq_wave_trapsts_xnack_error_mask ≠ 0 then
    e ||| exception_mask.xnack_error else e
  let e := if trapsts &&& sq_wave_trapsts_excp_mem_viol_mask ≠ 0 then
    e ||| exception_mask.mem_viol else e
  let e := if trapsts &&& sq_wave_trapsts_illegal_inst_mask ≠ 0 then
    e ||| exception_mask.illegal_inst else e
  let e := if trapsts &&& sq_wave_trapsts_excp_addr_watch0_mask ≠ 0
      ∧ mode_reg &&& sq_wave_mode_excp_en_addr_watch_mask ≠ 0 then
    e ||| exception_mask.addr_watch0 else e
  let e := if trapsts &&& sq_wave_trapsts_excp_hi_addr_watch1_mask ≠ 0
      ∧ mode_reg &&& sq_wave_mode_excp_en_addr_watch_mask ≠ 0 then
    e ||| exception_mask.addr_watch1 else e
  let e := if trapsts &&& sq_wave_trapsts_excp_hi_addr_watch2_mask ≠ 0
      ∧ mode_reg &&& sq_wave_mode_excp_en_addr_watch_mask ≠ 0 then
    e ||| exception_mask.addr_watch2 else e
  let e := if trapsts &&& sq_wave_trapsts_excp_hi_addr_watch3_mask ≠ 0
      ∧ mode_reg &&& sq_wave_mode_excp_en_addr_watch_mask ≠ 0 then
    e ||| exception_mask.addr_watch3 else e
  e

/-- The convert_mask lambda of amdgcn_architecture_t::set_exceptions:
    translate an exception_mask_t bitset into the union of the matching
    trapsts register bits (the accumulation chain of the source is
    written as one union of guarded masks). -/
def convert_mask (m : Nat) : Nat :=
  (if m &&& exception_mask.invalid ≠ 0 then
    sq_wave_trapsts_excp_invalid_mask else 0)
  ||| (if m &&& exception_mask.input_denorm ≠ 0 then
    sq_wave_trapsts_excp_input_denorm_mask else 0)
  ||| (if m &&& exception_mask.float_div0 ≠ 0 then
    sq_wave_trapsts_excp_div0_mask else 0)
  ||| (if m &&& exception_mask.overflow ≠ 0 then
    sq_wave_trapsts_excp_overflow_mask else 0)
  ||| (if m &&& exception_mask.underflow ≠ 0 then
    sq_wave_trapsts_excp_underflow_mask else 0)
  ||| (if m &&& exception_mask.int_div0 ≠ 0 then
    sq_wave_trapsts_excp_int_div0_mask else 0)
  ||| (if m &&& exception_mask.mem_viol ≠ 0 then
    sq_wave_trapsts_excp_mem_viol_mask else 0)
  ||| (if m &&& exception_mask.illegal_inst ≠ 0 then
    sq_wave_trapsts_illegal_inst_mask else 0)
  ||| (if m &&& exception_mask.addr_watch0 ≠ 0 then
    sq_wave_trapsts_excp_addr_watch0_mask else 0)
  ||| (if m &&& exception_mask.addr_watch1 ≠ 0 then
    sq_wave_trapsts_excp_hi_addr_watch1_mask else 0)
  ||| (if m &&& exception_mask.addr_watch2 ≠ 0 then
    sq_wave_trapsts_excp_hi_addr_watch2_mask else 0)
  ||| (if m &&& exception_mask.addr_watch3 ≠ 0 then
    sq_wave_trapsts_excp_hi_addr_watch3_mask else 0)

/-- amdgcn_architecture_t::set_exceptions: clear the trapsts bits of mask
    and set those of the exceptions actually present. -/
def set_exceptions (hw : SimWave) (mask exceptions : Nat) : SimWave :=
  let trapsts_mask := convert_mask mask
  let trapsts_set := convert_mask exceptions
  let trapsts := hw.reg .trapsts
  hw.setReg .trapsts
    ((trapsts &&& not32 trapsts_mask) ||| (trapsts_set &&& trapsts_mask))

/-- The exception set accumulated by
    amdgcn_architecture_t::clear_stop_reasons from the reported stop
    reasons (the accumulation chain of the source is written as one union
    of guarded masks). -/
def clear_stop_reasons_exceptions (stop_reason : Nat) : Nat :=
  (exception_mask.wave_begin ||| exception_mask.wave_end)
  ||| (if stop_reason &&& stop_reason_memory_violation ≠ 0 then
    exception_mask.mem_viol ||| exception_mask.xnack_error else 0)
  ||| (if stop_reason &&& stop_reason_address_error ≠ 0 then
    exception_mask.mem_viol else 0)
  ||| (if stop_reason &&& stop_reason_illegal_instruction ≠ 0 then
    exception_mask.illegal_inst else 0)
  ||| (if stop_reason &&& stop_reason_fp_invalid_operation ≠ 0 then
    exception_mask.invalid else 0)
  ||| (if stop_reason &&& stop_reason_fp_input_denormal ≠ 0 then
    exception_mask.input_denorm else 0)
  ||| (if stop_reason &&& stop_reason_fp_divide_by_0 ≠ 0 then
    exception_mask.float_div0 else 0)
  ||| (if stop_reason &&& stop_reason_fp_overflow ≠ 0 then
    exception_mask.overflow else 0)
  ||| (if stop_reason &&& stop_reason_fp_underflow ≠ 0 then
    exception_mask.underflow else 0)
  ||| (if stop_reason &&& stop_reason_fp_inexact ≠ 0 then
    exception_mask.inexact else 0)
  ||| (if stop_reason &&& stop_reason_int_divide_by_0 ≠ 0 then
    exception_mask.int_div0 else 0)
  ||| (if stop_reason &&& stop_reason_watchpoint ≠ 0 then
    exception_mask.addr_watch0 ||| exception_mask.addr_watch1
      ||| exception_mask.addr_watch2 ||| exception_mask.addr_watch3 else 0)
  ||| (if stop_reason &&& stop_reason_single_step ≠ 0 then
    exception_mask.trap_after_inst else 0)

/-- amdgcn_architecture_t::clear_stop_reasons: clear the hardware
    exception bits of every reported stop reason. -/
def clear_stop_reasons (hw : SimWave) (stop_reason : Nat) : SimWave :=
  set_exceptions hw (clear_stop_reasons_exceptions stop_reason) 0

/-! ## The wave state machine of wave_t -/

/-- A wave as seen by wave_t::set_state and the get_state and set_state
    architecture callbacks: the hardware wave (whose mState slot holds
    wave_t::m_state and whose pc slot is the save-area pc), the stop
    bookkeeping, the parked-pc shadow, the displaced-stepping operation,
    visibility, an oracle for process memory at instruction granularity
    (wave_t::instruction_at_pc), the SPI ttmp initialization capability of
    the agent and the can_halt_at_endpgm property of the architecture,
    and the endpgm instruction address of the queue callbacks
    (client-event side effects are not modelled). -/
structure DbgWave where
  hw : SimWave
  mStopReason : Nat
  mStopRequested : Bool
  mLastStoppedPc : Nat
  mIsParked : Bool
  mParkedPc : Nat
  mDisplaced : Bool
  displacedSimulated : Bool
  displacedInst : Instruction
  displacedFrom : Nat
  visible : Bool
  instMem : Nat → Option Instruction
  ttmpsInit : Bool
  canHaltAtEndpgm : Bool
  endpgmAddr : Nat

namespace DbgWave

/-- wave_t::state. -/
def state (w : DbgWave) : WaveState := w.hw.mState

/-- wave_t::pc: a pc read is redirected to the parked-pc shadow while the
    wave is parked. -/
def readPc (w : DbgWave) : Nat :=
  if w.mIsParked = true then w.mParkedPc else w.hw.pc

/-- wave_t::write_register of the pc: redirected to the parked-pc shadow
    while the wave is parked, otherwise the save-area slot. -/
def writePc (w : DbgWave) (v : Nat) : DbgWave :=
  if w.mIsParked = true then { w with mParkedPc := v }
  else { w with hw := { w.hw with pc := v } }

/-- wave_t::instruction_at_pc through the process-memory oracle. -/
def instruction_at_pc (w : DbgWave) : Option Instruction :=
  w.instMem w.readPc

/-- wave_t::park: remember the current pc in the shadow, point the
    save-area pc at the immutable park instruction, and mark the wave
    parked. -/
def park (w : DbgWave) : Except String DbgWave :=
  if w.state ≠ .stop then .error "assert: Cannot park a running wave"
  else if w.mIsParked = true then .error "assert: already parked"
  else
    let w1 := { w with mParkedPc := w.readPc }
    let w2 := w1.writePc w1.hw.parkAddr
    .ok { w2 with mIsParked := true }

/-- wave_t::unpark: read the saved pc from the shadow, clear the parked
    flag, and restore the pc into the save area. -/
def unpark (w : DbgWave) : Except String DbgWave :=
  if w.state = .stop then .error "assert: Cannot unpark a stopped wave"
  else if w.mIsParked = false then .error "assert: not parked"
  else
    let saved := w.readPc
    let w1 := { w with mIsParked := false }
    .ok (w1.writePc saved)

end DbgWave

/-- amdgcn_architecture_t::wave_set_state: to stop, save status.halt into
    ttmp6.saved_status_halt, raise ttmp6.wave_stopped and halt (adding
    the skip_export marker when SPI ttmps are not always initialized); to
    run or single-step, restore status.halt, clear ttmp6.wave_stopped and
    clear or set mode.debug_en; when resuming a stopped wave whose stop
    reason was reported, clear the reported hardware exception bits. -/
def wave_set_state (w : DbgWave) (state : WaveState) : DbgWave :=
  let status_reg := w.hw.reg .status
  let mode_reg := w.hw.reg .mode
  let ttmp6 := w.hw.reg (.ttmp 6)
  let smt : Nat × Nat × Nat :=
    match state with
    | .stop =>
      let t := ttmp6 &&& not32 (ttmp6_wave_stopped_mask
        ||| ttmp6_saved_status_halt_mask)
      let t := if status_reg &&& sq_wave_status_halt_mask ≠ 0 then
        t ||| ttmp6_saved_status_halt_mask else t
      let t := t ||| ttmp6_wave_stopped_mask
      let s := status_reg ||| sq_wave_status_halt_mask
      let s := if w.ttmpsInit = false then
        s ||| sq_wave_status_skip_export_mask else s
      (s, mode_reg, t)
    | .run =>
      let s := status_reg &&& not32 (sq_wave_status_halt_mask
        ||| sq_wave_status_skip_export_mask)
      let s := if ttmp6 &&& ttmp6_saved_status_halt_mask ≠ 0 then
        s ||| sq_wave_status_halt_mask else s
      let t := ttmp6 &&& not32 (ttmp6_wave_stopped_mask
        ||| ttmp6_saved_status_halt_mask)
      let m := mode_reg &&& not32 sq_wave_mode_debug_en_mask
      (s, m, t)
    | .singleStep =>
      let s := status_reg &&& not32 (sq_wave_status_halt_mask
        ||| sq_wave_status_skip_export_mask)
      let s := if ttmp6 &&& ttmp6_saved_status_halt_mask ≠ 0 then
        s ||| sq_wave_status_halt_mask else s
      let t := ttmp6 &&& not32 (ttmp6_wave_stopped_mask
        ||| ttmp6_saved_status_halt_mask)
      let m := mode_reg ||| sq_wave_mode_debug_en_mask
      (s, m, t)
  let hw1 := ((w.hw.setReg .status smt.1).setReg .mode smt.2.1).setReg
    (.ttmp 6) smt.2.2
  let hw2 := if state ≠ .stop ∧ w.state = .stop ∧ w.mStopReason ≠ 0 then
    clear_stop_reasons hw1 w.mStopReason else hw1
  { w with hw := hw2 }

/-- The stop-reason accumulation of amdgcn_architecture_t::wave_get_state:
    translate the signaled exceptions and the trap id saved in ttmp6 into
    the client stop-reason bitset. -/
def amdgcn_exception_stop_reason (hw : SimWave) (ttmp6 : Nat) : Nat :=
  let e := signaled_exceptions hw
  let sr : Nat := 0
  let sr := if e &&& exception_mask.invalid ≠ 0 then
    sr ||| stop_reason_fp_invalid_operation else sr
  let sr := if e &&& exception_mask.input_denorm ≠ 0 then
    sr ||| stop_reason_fp_input_denormal else sr
  let sr := if e &&& exception_mask.float_div0 ≠ 0 then
    sr ||| stop_reason_fp_divide_by_0 else sr
  let sr := if e &&& exception_mask.overflow ≠ 0 then
    sr ||| stop_reason_fp_overflow else sr
  let sr := if e &&& exception_mask.underflow ≠ 0 then
    sr ||| stop_reason_fp_underflow else sr
  let sr := if e &&& exception_mask.inexact ≠ 0 then
    sr ||| stop_reason_fp_inexact else sr
  let sr := if e &&& exception_mask.int_div0 ≠ 0 then
    sr ||| stop_reason_int_divide_by_0 else sr
  let sr := if e &&& exception_mask.xnack_error ≠ 0 then
    sr ||| stop_reason_memory_violation
    else if e &&& exception_mask.mem_viol ≠ 0 then
      sr ||| stop_reason_address_error else sr
  let sr := if e &&& exception_mask.illegal_inst ≠ 0 then
    sr ||| stop_reason_illegal_instruction else sr
  let sr := if e &&& (exception_mask.addr_watch0 ||| exception_mask.addr_watch1
      ||| exception_mask.addr_watch2 ||| exception_mask.addr_watch3) ≠ 0 then
    sr ||| stop_reason_watchpoint else sr
  let sr := if e &&& exception_mask.trap_after_inst ≠ 0 then
    sr ||| stop_reason_single_step else sr
  let sr := if e &&& (exception_mask.wave_begin ||| exception_mask.wave_end)
      ≠ 0 then sr ||| stop_reason_trap else sr
  match ttmp6_saved_trap_id ttmp6 with
  | some 2 => sr ||| stop_reason_assert_trap
  | some 3 => sr ||| stop_reason_debug_trap
  | some 1 => sr ||| stop_reason_breakpoint
  | some _ => sr ||| stop_reason_trap
  | none => sr

/-- amdgcn_architecture_t::wave_get_state: a wave whose ttmp6.wave_stopped
    latch is clear is still running; a wave already stopped keeps its stop
    reason; otherwise the wave has newly entered the trap handler: it is
    unparked (on parking architectures) and the signaled exceptions are
    translated into a stop reason. -/
def amdgcn_wave_get_state (w : DbgWave) : DbgWave × WaveState × Nat :=
  let ttmp6 := w.hw.reg (.ttmp 6)
  if ttmp6 &&& ttmp6_wave_stopped_mask = 0 then (w, w.state, 0)
  else if w.state = .stop then (w, .stop, w.mStopReason)
  else
    let w1 := if w.canHaltAtEndpgm = false then
      w.writePc (gfx9.saved_parked_pc w.hw) else w
    (w1, .stop, amdgcn_exception_stop_reason w1.hw ttmp6)

/-- gfx9_architecture_t::wave_get_state: on top of the generic decoding,
    disambiguate spurious single-step events for a previously
    single-stepping wave that has newly stopped: a moved pc always adds a
    single-step stop reason; an unmoved pc with no other stop reason is
    silently resumed in single-step mode when the instruction at pc is
    accessible and sequential, and otherwise reports a best-effort
    single-step stop reason. -/
def gfx9_wave_get_state (w : DbgWave) : DbgWave × WaveState × Nat :=
  let prev := w.state
  let r := amdgcn_wave_get_state w
  let w1 := r.1
  let new_state := r.2.1
  let sr := r.2.2
  if prev ≠ .singleStep ∨ new_state ≠ .stop then r
  else if w1.readPc ≠ w1.mLastStoppedPc then
    (w1, .stop, sr ||| stop_reason_single_step)
  else if sr = 0 then
    match w1.instruction_at_pc with
    | some i =>
      if gfx9.is_sequential i then
        (wave_set_state w1 .singleStep, .singleStep, 0)
      else (w1, .stop, sr ||| stop_reason_single_step)
    | none => (w1, .stop, sr ||| stop_reason_single_step)
  else (w1, .stop, sr)

/-- The test of wave_t::set_state for an s_endpgm instruction behind an
    optional instruction read. -/
def inst_is_endpgm (oi : Option Instruction) : Bool :=
  match oi with
  | some i => gfx9.is_endpgm i
  | none => false

/-- The committed tail of wave_t::set_state: write the hardware wave
    state, update the software state, park or unpark when the
    architecture cannot halt at s_endpgm, then perform the resume
    bookkeeping (last-stopped pc, stop-reason reset) or the stop
    bookkeeping with its visibility assert. -/
def set_state_tail (w : DbgWave) (prev state : WaveState) :
    Except String DbgWave :=
  let w1 := wave_set_state w state
  let w2 := { w1 with hw := { w1.hw with mState := state } }
  match (if w2.canHaltAtEndpgm = false then
      (if state = .stop then w2.park else w2.unpark)
    else .ok w2) with
  | .error e => .error e
  | .ok w3 =>
    if state ≠ .stop then
      if prev ≠ .stop then
        .error "assert: cannot resume an already running wave"
      else
        .ok { w3 with mLastStoppedPc := w3.readPc, mStopReason := 0 }
    else if prev ≠ .stop then
      if w3.visible = false then
        .error "assert: cannot request a hidden wave to stop"
      else .ok { w3 with mStopReason := 0 }
    else .ok w3

/-- wave_t::terminate: release the displaced-stepping operation, point
    the pc at an immutable s_endpgm instruction, hide the wave, and
    resume it; the nested wave_t::set_state call has the run target, so
    its single-step paths cannot trigger and its entry checks and
    committed tail are laid out directly. -/
def dbg_terminate (w : DbgWave) : Except String DbgWave :=
  let w1 := { w with mDisplaced := false }
  let w2 := w1.writePc w1.endpgmAddr
  let w3 := { w2 with
    visible := false
    hw := { w2.hw with terminated := true } }
  if WaveState.run = w3.state then .ok w3
  else if w3.mDisplaced = true then
    .error "assert: displaced-stepping waves can only be stopped or single-stepped"
  else if w3.mStopReason &&& not32 resumable_stop_reason_mask ≠ 0 then
    .error "assert: cannot resume a wave with fatal exceptions"
  else set_state_tail { w3 with mStopRequested := false } w3.state .run

/-- wave_t::set_state (gfx9 instantiation): a call with the current state
    is a no-op; a displaced-stepping wave cannot be set to run and a wave
    with fatal stop reasons pending cannot be resumed (asserts); a wave
    that would single-step an s_endpgm instruction is terminated instead;
    single-stepping a simulated displaced-stepping operation simulates
    the instruction and reports an immediate single-step stop when the
    simulation yields a next pc; every other request is committed through
    the hardware state write, parking and bookkeeping tail. -/
def set_state (w : DbgWave) (state : WaveState) : Except String DbgWave :=
  if state = w.state then .ok w
  else if w.mDisplaced = true ∧ state = .run then
    .error "assert: displaced-stepping waves can only be stopped or single-stepped"
  else if state ≠ .stop ∧ w.mStopReason
      &&& not32 resumable_stop_reason_mask ≠ 0 then
    .error "assert: cannot resume a wave with fatal exceptions"
  else
    let w1 := { w with mStopRequested := decide (state = .stop) }
    if state = .singleStep then
      let is_endpgm :=
        (w1.mDisplaced && w1.displacedSimulated
          && gfx9.is_endpgm w1.displacedInst)
        || inst_is_endpgm w1.instruction_at_pc
      if is_endpgm then dbg_terminate w1
      else if w1.mDisplaced && w1.displacedSimulated then
        match gfx9.simulate_instruction w1.hw w1.displacedFrom
            w1.displacedInst with
        | .error e => .error e
        | .ok (hw2, some _) =>
          .ok { w1 with hw := { hw2 with mState := .stop },
                        mStopReason := stop_reason_single_step }
        | .ok (hw2, none) =>
          set_state_tail { w1 with hw := hw2 } w.state state
      else set_state_tail w1 w.state state
    else set_state_tail w1 w.state state

/-- A concrete suspended wave used to instantiate theorems: one active
    lane mask value in s4 and three active lanes in exec. -/
def sample_wave : SimWave :=
  { reg := fun r =>
      if r = .sgpr 4 then 1 else if r = .execLo then 7 else 0
    pc := 4096
    laneCount := 64
    parkStoppedWaves := true
    parkAddr := 28672
    mState := .singleStep
    terminated := false }

/-- A concrete s_branch instruction with word offset 2 (gfx9 SOPP 2). -/
def sample_branch : Instruction := ⟨[0x02, 0x00, 0x82, 0xBF], true, 4⟩

/-- A concrete s_cbranch_i_fork instruction with sdst s4 and word offset 1
    (gfx9 SOPK 16). -/
def sample_fork : Instruction := ⟨[0x01, 0x00, 0x04, 0xB8], true, 4⟩

/-- A concrete hardware-halted wave. -/
def halted_wave : SimWave :=
  { reg := fun r => if r = .status then sq_wave_status_halt_mask else 0
    pc := 4096
    laneCount := 64
    parkStoppedWaves := true
    parkAddr := 28672
    mState := .singleStep
    terminated := false }


/-- A concrete debugger-level wave: stopped, parked at the park address,
    with a breakpoint stop reason latched. -/
def sample_dbg_wave : DbgWave :=
  { hw := { reg := fun r => if r = .ttmp 6 then ttmp6_wave_stopped_mask else 0
            pc := 28672
            laneCount := 64
            parkStoppedWaves := true
            parkAddr := 28672
            mState := .stop
            terminated := false }
    mStopReason := stop_reason_breakpoint
    mStopRequested := true
    mLastStoppedPc := 4096
    mIsParked := true
    mParkedPc := 4096
    mDisplaced := false
    displacedSimulated := false
    displacedInst := ⟨[], false, 0⟩
    displacedFrom := 0
    visible := true
    instMem := fun _ => none
    ttmpsInit := true
    canHaltAtEndpgm := false
    endpgmAddr := 0 }

/-- The same wave before parking. -/
def sample_stopped_unparked : DbgWave :=
  { sample_dbg_wave with
    mIsParked := false
    hw := { sample_dbg_wave.hw with pc := 4096 } }

/-- A single-stepping wave whose trap-handler latch is set: ttmp6 holds
    wave_stopped, the parked pc 4096 is saved in ttmp7, trapsts is clean,
    and the instruction at 4096 is a sequential s_nop. -/
def sample_ss_wave : DbgWave :=
  { hw := { reg := fun r =>
        if r = .ttmp 6 then ttmp6_wave_stopped_mask
        else if r = .ttmp 7 then 4096 else 0
            pc := 28672
            laneCount := 64
            parkStoppedWaves := true
            parkAddr := 28672
            mState := .singleStep
            terminated := false }
    mStopReason := 0
    mStopRequested := false
    mLastStoppedPc := 4096
    mIsParked := false
    mParkedPc := 0
    mDisplaced := false
    displacedSimulated := false
    displacedInst := ⟨[], false, 0⟩
    displacedFrom := 0
    visible := true
    instMem := fun a =>
      if a = 4096 then some ⟨[0x00, 0x00, 0x80, 0xBF], true, 4⟩ else none
    ttmpsInit := true
    canHaltAtEndpgm := false
    endpgmAddr := 0 }

/-! ## Theorems -/

/-- Helper: the final align_down of branch_target produces a multiple of
    the minimum instruction alignment. -/
theorem align_down_alignment_mod (x : Nat) :
    utils.align_down x minimum_instruction_alignment
      % minimum_instruction_alignment = 0 := by
  have h4 : minimum_instruction_alignment = 4 := by decide
  rw [h4]
  unfold utils.align_down
  omega

/-- Helper: two fixed-width encoding facts with nested masks conflict when
    the refined values disagree. -/
theorem encoding_conflict {x m1 v1 m2 v2 : Nat}
    (h1 : x &&& m1 = v1) (h2 : x &&& m2 = v2)
    (hmm : m2 &&& m1 = m1) (hne : v2 &&& m1 ≠ v1) : False := by
  apply hne
  have h3 : x &&& m2 &&& m1 = v2 &&& m1 := by rw [h2]
  rw [Nat.land_assoc, hmm, h1] at h3
  exact h3.symm

/-- Helper: a 64-bit value is recovered from its stored 32-bit halves. -/
theorem lor_split64 (x : Nat) (hx : x < 2 ^ 64) :
    wrap32 x ||| wrap32 (x >>> 32) <<< 32 = x := by
  unfold wrap32
  apply Nat.eq_of_testBit_eq
  intro j
  simp only [Nat.testBit_lor, Nat.testBit_shiftLeft, Nat.testBit_mod_two_pow,
    Nat.testBit_shiftRight]
  by_cases h1 : j < 32
  · simp [h1, show ¬ j ≥ 32 by omega]
  · by_cases h2 : j < 64
    · have e : 32 + (j - 32) = j := by omega
      simp [h1, show j ≥ 32 by omega, show j - 32 < 32 by omega, e]
    · have hb : x.testBit j = false :=
        Nat.testBit_lt_two_pow
          (lt_of_lt_of_le hx (Nat.pow_le_pow_right (by norm_num) (by omega)))
      simp [h1, hb, show ¬ j - 32 < 32 by omega]

/-- Helper: a masked-word encoding fact refutes a different encoding test
    whose mask contains the first. -/
theorem land_ne_of_land (x : Nat) {m1 v1 m2 v2 : Nat}
    (hW : x &&& m1 = v1) (hmm : m2 &&& m1 = m1) (hne : v2 &&& m1 ≠ v1) :
    (x &&& m2 == v2) = false := by
  rw [beq_eq_false_iff_ne]
  intro h2
  exact encoding_conflict hW h2 hmm hne

/-- Helper: a pair of 32-bit register values assembles below 2 to the 64. -/
theorem lor_hi_lo_lt (lo hi : Nat) (hlo : lo < 2 ^ 32) (hhi : hi < 2 ^ 32) :
    lo ||| hi <<< 32 < 2 ^ 64 := by
  apply Nat.or_lt_two_pow (lt_of_lt_of_le hlo (by norm_num))
  rw [Nat.shiftLeft_eq]
  calc hi * 2 ^ 32 < 2 ^ 32 * 2 ^ 32 :=
        Nat.mul_lt_mul_of_lt_of_le hhi (le_refl _) (by norm_num)
    _ = 2 ^ 64 := by norm_num

/-- Helper: a value or-ed with a mask keeps exactly the mask bits set. -/
theorem lor_land_self (x m : Nat) : (x ||| m) &&& m = m := by
  apply Nat.eq_of_testBit_eq
  intro j
  rw [Nat.testBit_land, Nat.testBit_lor]
  cases x.testBit j <;> cases m.testBit j <;> rfl

/-- Helper: same with one more or-term. -/
theorem lor3_land_self (x m h : Nat) : (x ||| m ||| h) &&& m = m := by
  apply Nat.eq_of_testBit_eq
  intro j
  rw [Nat.testBit_land, Nat.testBit_lor, Nat.testBit_lor]
  cases x.testBit j <;> cases m.testBit j <;> cases h.testBit j <;> rfl

/-- Helper: save_pc_for_park stores pc bits 32-47 recoverably in the
    ttmp11 field. -/
theorem park_field_roundtrip (t npc : Nat) :
    utils.bit_extract ((t &&& not32 (utils.bit_mask 7 22))
        ||| wrap32 (utils.bit_extract npc 32 47 <<< 7)) 7 22
      = utils.bit_extract npc 32 47 := by
  unfold utils.bit_extract utils.bit_mask not32 wrap32
  apply Nat.eq_of_testBit_eq
  intro j
  simp only [Nat.testBit_mod_two_pow, Nat.testBit_shiftRight, Nat.testBit_lor,
    Nat.testBit_land, Nat.testBit_xor, Nat.testBit_shiftLeft,
    Nat.testBit_two_pow_sub_one]
  by_cases hj : j < 16
  · have h3 : 7 + j - 7 = j := by omega
    simp [h3, hj, show 7 + j < 32 by omega, show 7 + j ≥ 7 by omega,
      show 22 - 7 + 1 = 16 from rfl, show 47 - 32 + 1 = 16 from rfl,
      show j < 22 - 7 + 1 from by omega]
  · have h3 : 7 + j - 7 = j := by omega
    simp [h3, hj, show ¬ (j < 22 - 7 + 1) from by omega]

/-- Helper: saved_parked_pc reassembles the low 48 bits of the parked pc. -/
theorem parked_pc_assemble (npc : Nat) :
    utils.bit_extract npc 0 31 ||| utils.bit_extract npc 32 47 <<< 32
      = npc % 2 ^ 48 := by
  unfold utils.bit_extract
  apply Nat.eq_of_testBit_eq
  intro j
  simp only [Nat.testBit_mod_two_pow, Nat.testBit_shiftRight, Nat.testBit_lor,
    Nat.testBit_shiftLeft, Nat.shiftRight_zero]
  by_cases h1 : j < 32
  · simp [h1, show j < 31 - 0 + 1 from by omega, show ¬ (j ≥ 32) from by omega,
      show j < 48 from by omega]
  · by_cases h2 : j < 48
    · have h3 : 32 + (j - 32) = j := by omega
      simp [h1, h2, h3, show ¬ (j < 31 - 0 + 1) from by omega,
        show j ≥ 32 from by omega, show j - 32 < 47 - 32 + 1 from by omega]
    · have h3 : 32 + (j - 32) = j := by omega
      simp [h1, h2, h3, show ¬ (j < 31 - 0 + 1) from by omega,
        show ¬ (j - 32 < 47 - 32 + 1) from by omega]

/-- Helper: a fork instruction word (operand-selected SOPK or SOP2 block)
    is not a branch, conditional branch, setpc or endpgm encoding. -/
theorem fork_falsities (i : Instruction) (v : Nat)
    (hW : i.word0 &&& 0xFF800000 = v)
    (hv1 : v ≠ 0xBF800000) (hv2 : v ≠ 0xBE800000) :
    gfx9.is_branch i = false ∧ gfx9.is_cbranch i = false ∧
    gfx9.is_setpc i = false ∧ gfx9.is_endpgm i = false := by
  refine ⟨?_, ?_, ?_, ?_⟩
  · unfold gfx9.is_branch is_sopp_encoding1
    rw [land_ne_of_land i.word0 hW (by decide)
        (by rw [show ((0xBF800000 ||| (2 &&& 0x7F) <<< 16 : Nat)
            &&& 0xFF800000) = 0xBF800000 from by decide]
            exact fun h => hv1 h.symm),
      Bool.and_false]
  · unfold gfx9.is_cbranch
    rw [hW, beq_eq_false_iff_ne.mpr hv1]
    simp
  · unfold gfx9.is_setpc is_sop1_encoding1
    rw [land_ne_of_land i.word0 hW (by decide)
        (by rw [show ((0xBE800000 ||| (29 &&& 0xFF) <<< 8 : Nat)
            &&& 0xFF800000) = 0xBE800000 from by decide]
            exact fun h => hv2 h.symm)]
    simp
  · unfold gfx9.is_endpgm is_sopp_encoding1
    rw [land_ne_of_land i.word0 hW (by decide)
        (by rw [show ((0xBF800000 ||| (1 &&& 0x7F) <<< 16 : Nat)
            &&& 0xFF800000) = 0xBF800000 from by decide]
            exact fun h => hv1 h.symm),
      Bool.and_false]

/-- Helper: the top-level encoding block of a fork instruction, and the
    facts that it is neither sequential nor invalid. -/
theorem fork_word_facts (i : Instruction)
    (hform : (gfx9.is_cbranch_i_fork i || gfx9.is_cbranch_g_fork i) = true) :
    (i.word0 &&& 0xFF800000 = 0xB8000000
      ∨ i.word0 &&& 0xFF800000 = 0x94800000)
    ∧ gfx9.is_sequential i = false ∧ i.valid = true := by
  rcases (Bool.or_eq_true _ _).mp hform with hif | hgf
  · unfold gfx9.is_cbranch_i_fork at hif
    simp only [Bool.and_eq_true] at hif
    have hk := hif.1.2
    have hw : i.word0 &&& 0xFF800000 = 0xB8000000 := by
      unfold is_sopk_encoding1 at hk
      simp only [Bool.and_eq_true, beq_iff_eq] at hk
      rw [hk.2]; decide
    refine ⟨Or.inl hw, ?_, hif.1.1⟩
    unfold gfx9.is_sequential is_sopk_encoding
    simp [hk]
  · unfold gfx9.is_cbranch_g_fork at hgf
    simp only [Bool.and_eq_true] at hgf
    have hk := hgf.1.1.2
    have hw : i.word0 &&& 0xFF800000 = 0x94800000 := by
      unfold is_sop2_encoding1 at hk
      simp only [Bool.and_eq_true, beq_iff_eq] at hk
      rw [hk.2]; decide
    refine ⟨Or.inr hw, ?_, hgf.1.1.1⟩
    unfold gfx9.is_sequential is_sop2_encoding
    simp [hk]

/-- Helper: in the split case, is_branch_taken reduces to the set-bit
    count comparison of the source. -/
theorem fork_taken_eq (w : SimWave) (i : Instruction) (r : Reg)
    (hlane : w.laneCount = 64)
    (hfork : (gfx9.is_cbranch_i_fork i || gfx9.is_cbranch_g_fork i) = true)
    (hcb : gfx9.is_cbranch i = false)
    (hr : gfx9.scalar_operand_to_regnum
        (if gfx9.is_cbranch_i_fork i then sdst_operand i else ssrc0_operand i)
      = some r)
    (hp : gfx9.fork_mask w r &&& w.read_exec64 ≠ w.read_exec64)
    (hf : not64 (gfx9.fork_mask w r) &&& w.read_exec64 ≠ w.read_exec64) :
    gfx9.is_branch_taken w i
      = .ok (decide (utils.bit_count (gfx9.fork_mask w r &&& w.read_exec64)
          ≤ utils.bit_count (not64 (gfx9.fork_mask w r) &&& w.read_exec64))) := by
  unfold gfx9.is_branch_taken
  rw [hcb, hfork, hlane, hr]
  simp only [Bool.false_eq_true, if_false, if_true, bne_self_eq_false,
    reduceIte, beq_eq_false_iff_ne, ne_eq]
  rw [if_neg (by simpa using hp), if_neg (by simpa using hf)]

/-- Helper: in the split case, a normal return of simulate_instruction is
    exactly the call-stack push of the deferred side followed by the exec
    and csp updates. -/
theorem fork_sim_shape (w : SimWave) (i : Instruction) (r : Reg) (pc : Nat)
    (w' : SimWave) (npc : Option Nat)
    (hlane : w.laneCount = 64)
    (hfork : (gfx9.is_cbranch_i_fork i || gfx9.is_cbranch_g_fork i) = true)
    (hbr : gfx9.is_branch i = false)
    (hcb : gfx9.is_cbranch i = false)
    (hsp : gfx9.is_setpc i = false)
    (hep : gfx9.is_endpgm i = false)
    (hr : gfx9.scalar_operand_to_regnum
        (if gfx9.is_cbranch_i_fork i then sdst_operand i else ssrc0_operand i)
      = some r)
    (hp : gfx9.fork_mask w r &&& w.read_exec64 ≠ w.read_exec64)
    (hf : not64 (gfx9.fork_mask w r) &&& w.read_exec64 ≠ w.read_exec64)
    (hsim : gfx9.simulate_instruction w pc i = .ok (w', npc)) :
    ∃ saved_pc,
      (if (decide (utils.bit_count (gfx9.fork_mask w r &&& w.read_exec64)
          ≤ utils.bit_count (not64 (gfx9.fork_mask w r) &&& w.read_exec64)))
        then Except.ok (wrap64 (pc + i.size))
        else gfx9.branch_target w pc i) = Except.ok saved_pc ∧
      w' =
        (((((w.setReg (.sgpr (wrap32 (w.read_csp * 4) + 0))
            (wrap32 (if (decide (utils.bit_count (gfx9.fork_mask w r &&& w.read_exec64)
               ≤ utils.bit_count (not64 (gfx9.fork_mask w r) &&& w.read_exec64)))
              then not64 (gfx9.fork_mask w r) &&& w.read_exec64
              else gfx9.fork_mask w r &&& w.read_exec64))).setReg
              (.sgpr (wrap32 (w.read_csp * 4) + 1))
            (wrap32 ((if (decide (utils.bit_count (gfx9.fork_mask w r &&& w.read_exec64)
               ≤ utils.bit_count (not64 (gfx9.fork_mask w r) &&& w.read_exec64)))
              then not64 (gfx9.fork_mask w r) &&& w.read_exec64
              else gfx9.fork_mask w r &&& w.read_exec64) >>> 32))).setReg
              (.sgpr (wrap32 (w.read_csp * 4) + 2)) (wrap32 saved_pc)).setReg
              (.sgpr (wrap32 (w.read_csp * 4) + 3))
            (wrap32 (saved_pc >>> 32))).write_csp (w.read_csp + 1)).write_exec64
          (if (decide (utils.bit_count (gfx9.fork_mask w r &&& w.read_exec64)
              ≤ utils.bit_count (not64 (gfx9.fork_mask w r) &&& w.read_exec64)))
            then gfx9.fork_mask w r &&& w.read_exec64
            else not64 (gfx9.fork_mask w r) &&& w.read_exec64) := by
  have htaken := fork_taken_eq w i r hlane hfork hcb hr hp hf
  unfold gfx9.simulate_instruction at hsim
  by_cases halign : (pc % minimum_instruction_alignment != 0) = true
  · rw [if_pos halign] at hsim
    cases hsim
  · rw [if_neg halign] at hsim
    rw [hbr, hcb, hsp, hep, hfork, hlane, hr] at hsim
    simp only [Bool.false_or, Bool.or_false, Bool.false_eq_true, if_false,
      if_true, bne_self_eq_false, reduceIte] at hsim
    rw [if_pos (by simp only [bne_iff_ne, ne_eq, Bool.and_eq_true, decide_eq_true_eq]; exact ⟨hp, hf⟩)] at hsim
    rw [htaken] at hsim
    simp only [] at hsim
    by_cases ht : utils.bit_count (gfx9.fork_mask w r &&& w.read_exec64)
        ≤ utils.bit_count (not64 (gfx9.fork_mask w r) &&& w.read_exec64)
    · rw [decide_eq_true ht] at hsim ⊢
      simp only [if_true, reduceIte] at hsim ⊢
      refine ⟨wrap64 (pc + i.size), rfl, ?_⟩
      repeat' split at hsim
      all_goals cases hsim
      all_goals rfl
    · rw [decide_eq_false ht] at hsim ⊢
      simp only [Bool.false_eq_true, if_false, reduceIte] at hsim ⊢
      cases hbt : gfx9.branch_target w pc i with
      | error e =>
        rw [hbt] at hsim
        simp only [] at hsim
        cases hsim
      | ok t =>
        rw [hbt] at hsim
        simp only [] at hsim
        refine ⟨t, rfl, ?_⟩
        repeat' split at hsim
        all_goals cases hsim
        all_goals rfl

/-- Helper: register lookups through the fork push chain. -/
theorem push_chain_lookup (w : SimWave) (idx a b c d m E : Nat) :
    ((((((w.setReg (.sgpr (idx + 0)) a).setReg (.sgpr (idx + 1)) b).setReg
        (.sgpr (idx + 2)) c).setReg (.sgpr (idx + 3)) d).write_csp m).write_exec64 E).reg
          (.sgpr (idx + 0)) = a
    ∧ ((((((w.setReg (.sgpr (idx + 0)) a).setReg (.sgpr (idx + 1)) b).setReg
        (.sgpr (idx + 2)) c).setReg (.sgpr (idx + 3)) d).write_csp m).write_exec64 E).reg
          (.sgpr (idx + 1)) = b
    ∧ ((((((w.setReg (.sgpr (idx + 0)) a).setReg (.sgpr (idx + 1)) b).setReg
        (.sgpr (idx + 2)) c).setReg (.sgpr (idx + 3)) d).write_csp m).write_exec64 E).reg
          (.sgpr (idx + 2)) = c
    ∧ ((((((w.setReg (.sgpr (idx + 0)) a).setReg (.sgpr (idx + 1)) b).setReg
        (.sgpr (idx + 2)) c).setReg (.sgpr (idx + 3)) d).write_csp m).write_exec64 E).reg
          (.sgpr (idx + 3)) = d
    ∧ ((((((w.setReg (.sgpr (idx + 0)) a).setReg (.sgpr (idx + 1)) b).setReg
        (.sgpr (idx + 2)) c).setReg (.sgpr (idx + 3)) d).write_csp m).write_exec64 E).read_exec64
        = wrap32 E ||| wrap32 (E >>> 32) <<< 32 := by
  simp [SimWave.setReg, SimWave.write_csp, SimWave.write_exec64,
    SimWave.read_exec64]

/-- C1: the control stack walk starts at the third word (the result does
    not depend on the two header words), and the iteration returns
    normally exactly when the final save-area cursor equals
    wave_area_address minus wave_area_size; any other final cursor value
    takes the fatal corruption path instead. -/
theorem control_stack_iterate_spec (a b a' b' : Nat) (rest : List Nat)
    (addr sz : Nat) :
    gfx9.control_stack_iterate (a :: b :: rest) addr sz
        = gfx9.control_stack_iterate (a' :: b' :: rest) addr sz
    ∧ ((∃ n, gfx9.control_stack_iterate (a :: b :: rest) addr sz = .ok n)
        ↔ (gfx9.control_stack_walk (a :: b :: rest) addr).2.1
            = sub64 addr sz)
    ∧ (gfx9.control_stack_iterate (a :: b :: rest) addr sz
          = .error "Corrupted control stack or wave save area"
        ↔ (gfx9.control_stack_walk (a :: b :: rest) addr).2.1
            ≠ sub64 addr sz) := by
  refine ⟨rfl, ?_, ?_⟩ <;>
    simp only [gfx9.control_stack_iterate, beq_iff_eq]
  · constructor
    · rintro ⟨n, h⟩
      by_cases hc : (gfx9.control_stack_walk (a :: b :: rest) addr).2.1
          = sub64 addr sz
      · exact hc
      · rw [if_neg hc] at h; cases h
    · intro hc
      rw [if_pos hc]; exact ⟨_, rfl⟩
  · constructor
    · intro h hc
      rw [if_pos hc] at h; cases h
    · intro hc
      rw [if_neg hc]

/-- C7: for every architecture, classify_instruction on the documented
    terminate encoding returns kind TERMINATE: the 4-byte sequence
    00 00 81 BF (s_endpgm, SOPP opcode 1) classifies as TERMINATE on GFX9,
    and 00 00 B0 BF (s_endpgm, SOPP opcode 48) classifies as TERMINATE on
    GFX11, whatever validity the native decoder reports. -/
theorem classify_endpgm_terminate :
    (∀ v : Bool,
      classify_instruction gfx9Arch ⟨[0x00, 0x00, 0x81, 0xBF], v, 4⟩
        = .terminate)
    ∧ (∀ v : Bool,
      classify_instruction gfx11Arch ⟨[0x00, 0x00, 0xB0, 0xBF], v, 4⟩
        = .terminate) := by
  constructor <;> intro v <;> cases v <;> decide

/-- C3: for every direct branch, conditional branch, call or i-fork
    instruction with signed 16-bit word offset d at address pc with
    instruction size n, branch_target returns
    align_down (pc + n + 4 * d) to the minimum instruction alignment
    (in uint64 arithmetic), and every value branch_target returns, for any
    branch form, is aligned down to the minimum instruction alignment. -/
theorem branch_target_spec :
    (∀ (w : SimWave) (pc : Nat) (i : Instruction) (d : Int) (n : Nat),
      i.valid = true →
      (gfx9.is_branch i || gfx9.is_call i || gfx9.is_cbranch i
        || gfx9.is_cbranch_i_fork i) = true →
      simm16_operand i = d → i.size = n →
      gfx9.branch_target w pc i
        = .ok (utils.align_down (wrap64i ((pc : Int) + (n : Int) + 4 * d))
            minimum_instruction_alignment))
    ∧ (∀ (w : SimWave) (pc : Nat) (i : Instruction) (t : Nat),
      gfx9.branch_target w pc i = .ok t →
      t % minimum_instruction_alignment = 0) := by
  constructor
  · intro w pc i d n hv hform hd hn
    unfold gfx9.branch_target
    rw [hv]
    simp only [Bool.not_true, Bool.false_eq_true, if_false, hform, if_true]
    rw [hd, hn]
    congr 3
    ring
  · intro w pc i t h
    unfold gfx9.branch_target at h
    repeat' split at h
    all_goals cases h
    all_goals exact align_down_alignment_mod _

/-- Witness for C3: the s_branch at pc 4096 with offset 2 lands at
    4096 + 4 + 8. -/
theorem branch_target_spec_witness :
    gfx9.branch_target sample_wave 4096 sample_branch
      = .ok (utils.align_down (wrap64i ((4096 : Int) + (4 : Int) + 4 * 2))
          minimum_instruction_alignment) :=
  branch_target_spec.1 sample_wave 4096 sample_branch 2 4 (by decide)
    (by decide) (by decide) (by decide)

/-- C4 counterexample: simulating the s_cbranch_i_fork with mask 1 and
    exec 7 takes the branch and pushes the fail side: the deferred side
    pushed on the call stack (mask 6, two active lanes, with resume pc
    4100, the fall-through) has MORE active lanes than the side that
    executes first (exec becomes 1, one active lane), refuting the claim
    that the side with fewer active lanes is deferred. -/
theorem fork_tiebreak_counterexample :
    ((gfx9.simulate_instruction sample_wave 4096 sample_fork).toOption.map
        (fun p => (p.1.read_exec64, p.1.reg (.sgpr 0), p.1.reg (.sgpr 1),
          p.1.reg (.sgpr 2), p.1.read_csp, p.2)))
      = some (1, 6, 0, 4100, 1, some 4104)
    ∧ utils.bit_count 6 > utils.bit_count 1 :=
  ⟨by decide, by decide⟩

/-- C4 (amended): for every fork instruction evaluated on a 64-lane wave,
    if the exec mask is fully contained in the pass mask the branch is
    taken; if it is fully contained in the fail mask (and not in the pass
    mask) it is not taken; otherwise the branch is taken exactly when the
    pass side has at most as many active lanes as the fail side, and
    simulate_instruction pushes the side with MORE (or equally many)
    active lanes on the call stack together with its resume pc, while the
    side with fewer (or equally many) active lanes becomes exec and
    executes first.  (The claim as frozen says the side with fewer active
    lanes is deferred; the code defers the larger side, see the
    counterexample.) -/
theorem fork_branch_decision_spec (w : SimWave) (i : Instruction) (r : Reg)
    (hreg : ∀ x, w.reg x < 2 ^ 32)
    (hlane : w.laneCount = 64)
    (hform : (gfx9.is_cbranch_i_fork i || gfx9.is_cbranch_g_fork i) = true)
    (hr : gfx9.scalar_operand_to_regnum
        (if gfx9.is_cbranch_i_fork i then sdst_operand i else ssrc0_operand i)
      = some r) :
    (gfx9.fork_mask w r &&& w.read_exec64 = w.read_exec64 →
      gfx9.is_branch_taken w i = .ok true)
    ∧ (gfx9.fork_mask w r &&& w.read_exec64 ≠ w.read_exec64 →
       not64 (gfx9.fork_mask w r) &&& w.read_exec64 = w.read_exec64 →
       gfx9.is_branch_taken w i = .ok false)
    ∧ (gfx9.fork_mask w r &&& w.read_exec64 ≠ w.read_exec64 →
       not64 (gfx9.fork_mask w r) &&& w.read_exec64 ≠ w.read_exec64 →
       gfx9.is_branch_taken w i
         = .ok (decide
            (utils.bit_count (gfx9.fork_mask w r &&& w.read_exec64)
              ≤ utils.bit_count
                  (not64 (gfx9.fork_mask w r) &&& w.read_exec64)))
       ∧ ∀ pc w' npc,
          gfx9.simulate_instruction w pc i = .ok (w', npc) →
          w'.read_exec64
              = (if decide (utils.bit_count
                    (gfx9.fork_mask w r &&& w.read_exec64)
                  ≤ utils.bit_count
                      (not64 (gfx9.fork_mask w r) &&& w.read_exec64))
                then gfx9.fork_mask w r &&& w.read_exec64
                else not64 (gfx9.fork_mask w r) &&& w.read_exec64)
          ∧ (w'.reg (.sgpr (wrap32 (w.read_csp * 4) + 1)) <<< 32
              ||| w'.reg (.sgpr (wrap32 (w.read_csp * 4) + 0)))
             = (if decide (utils.bit_count
                    (gfx9.fork_mask w r &&& w.read_exec64)
                  ≤ utils.bit_count
                      (not64 (gfx9.fork_mask w r) &&& w.read_exec64))
                then not64 (gfx9.fork_mask w r) &&& w.read_exec64
                else gfx9.fork_mask w r &&& w.read_exec64)
          ∧ utils.bit_count w'.read_exec64
              ≤ utils.bit_count
                  (w'.reg (.sgpr (wrap32 (w.read_csp * 4) + 1)) <<< 32
                    ||| w'.reg (.sgpr (wrap32 (w.read_csp * 4) + 0)))
          ∧ ∃ spc,
              (if decide (utils.bit_count
                    (gfx9.fork_mask w r &&& w.read_exec64)
                  ≤ utils.bit_count
                      (not64 (gfx9.fork_mask w r) &&& w.read_exec64))
                then Except.ok (wrap64 (pc + i.size))
                else gfx9.branch_target w pc i) = .ok spc
              ∧ w'.reg (.sgpr (wrap32 (w.read_csp * 4) + 2)) = wrap32 spc
              ∧ w'.reg (.sgpr (wrap32 (w.read_csp * 4) + 3))
                  = wrap32 (spc >>> 32)) := by
  obtain ⟨hWor, hsq, hv⟩ := fork_word_facts i hform
  have hfals : gfx9.is_branch i = false ∧ gfx9.is_cbranch i = false ∧
      gfx9.is_setpc i = false ∧ gfx9.is_endpgm i = false := by
    rcases hWor with hW | hW
    · exact fork_falsities i _ hW (by decide) (by decide)
    · exact fork_falsities i _ hW (by decide) (by decide)
  obtain ⟨hbr, hcb, hsp, hep⟩ := hfals
  have hexec_lt : w.read_exec64 < 2 ^ 64 :=
    lor_hi_lo_lt _ _ (hreg _) (hreg _)
  refine ⟨?_, ?_, ?_⟩
  · -- exec fully inside the pass mask: taken
    intro hpass
    unfold gfx9.is_branch_taken
    rw [hcb, hform, hlane, hr]
    simp only [Bool.false_eq_true, if_false, if_true, bne_self_eq_false,
      reduceIte]
    rw [if_pos (by simpa using hpass)]
  · -- exec fully inside the fail mask (and not the pass mask): not taken
    intro hpass hfail
    unfold gfx9.is_branch_taken
    rw [hcb, hform, hlane, hr]
    simp only [Bool.false_eq_true, if_false, if_true, bne_self_eq_false,
      reduceIte]
    rw [if_neg (by simpa using hpass), if_pos (by simpa using hfail)]
  · intro hp hf
    have htaken := fork_taken_eq w i r hlane hform hcb hr hp hf
    refine ⟨htaken, ?_⟩
    intro pc w' npc hsim
    obtain ⟨spc, hspc, hw'⟩ :=
      fork_sim_shape w i r pc w' npc hlane hform hbr hcb hsp hep hr hp hf hsim
    subst hw'
    have hlook := push_chain_lookup w (wrap32 (w.read_csp * 4))
      (wrap32 (if decide (utils.bit_count
            (gfx9.fork_mask w r &&& w.read_exec64)
          ≤ utils.bit_count (not64 (gfx9.fork_mask w r) &&& w.read_exec64))
        then not64 (gfx9.fork_mask w r) &&& w.read_exec64
        else gfx9.fork_mask w r &&& w.read_exec64))
      (wrap32 ((if decide (utils.bit_count
            (gfx9.fork_mask w r &&& w.read_exec64)
          ≤ utils.bit_count (not64 (gfx9.fork_mask w r) &&& w.read_exec64))
        then not64 (gfx9.fork_mask w r) &&& w.read_exec64
        else gfx9.fork_mask w r &&& w.read_exec64) >>> 32))
      (wrap32 spc) (wrap32 (spc >>> 32)) (w.read_csp + 1)
      (if decide (utils.bit_count (gfx9.fork_mask w r &&& w.read_exec64)
          ≤ utils.bit_count (not64 (gfx9.fork_mask w r) &&& w.read_exec64))
        then gfx9.fork_mask w r &&& w.read_exec64
        else not64 (gfx9.fork_mask w r) &&& w.read_exec64)
    obtain ⟨l0, l1, l2, l3, lexec⟩ := hlook
    have hE_lt : (if decide (utils.bit_count
          (gfx9.fork_mask w r &&& w.read_exec64)
        ≤ utils.bit_count (not64 (gfx9.fork_mask w r) &&& w.read_exec64))
      then gfx9.fork_mask w r &&& w.read_exec64
      else not64 (gfx9.fork_mask w r) &&& w.read_exec64) < 2 ^ 64 := by
      split <;> exact lt_of_le_of_lt Nat.and_le_right hexec_lt
    have hD_lt : (if decide (utils.bit_count
          (gfx9.fork_mask w r &&& w.read_exec64)
        ≤ utils.bit_count (not64 (gfx9.fork_mask w r) &&& w.read_exec64))
      then not64 (gfx9.fork_mask w r) &&& w.read_exec64
      else gfx9.fork_mask w r &&& w.read_exec64) < 2 ^ 64 := by
      split <;> exact lt_of_le_of_lt Nat.and_le_right hexec_lt
    refine ⟨?_, ?_, ?_, spc, hspc, l2, l3⟩
    · rw [lexec]
      exact lor_split64 _ hE_lt
    · rw [l0, l1, Nat.lor_comm]
      exact lor_split64 _ hD_lt
    · rw [lexec, lor_split64 _ hE_lt, l0, l1, Nat.lor_comm,
        lor_split64 _ hD_lt]
      by_cases ht : utils.bit_count (gfx9.fork_mask w r &&& w.read_exec64)
          ≤ utils.bit_count (not64 (gfx9.fork_mask w r) &&& w.read_exec64)
      · rw [decide_eq_true ht]
        simpa using ht
      · rw [decide_eq_false ht]
        simp only [Bool.false_eq_true, if_false, reduceIte]
        omega


/-- Witness for C4 (amended): on the sample fork (mask 1, exec 7) the
    branch decision evaluates to taken through the amended theorem. -/
theorem fork_branch_decision_spec_witness :
    gfx9.is_branch_taken sample_wave sample_fork = .ok true := by
  have hreg : ∀ x, sample_wave.reg x < 2 ^ 32 := by
    intro x
    show (if x = Reg.sgpr 4 then 1 else if x = Reg.execLo then 7 else 0)
        < 2 ^ 32
    split
    · norm_num
    · split <;> norm_num
  have h := (fork_branch_decision_spec sample_wave sample_fork (.sgpr 4)
      hreg (by decide) (by decide) (by decide)).2.2 (by decide) (by decide)
  exact h.1.trans (congrArg Except.ok (by decide))

/-- C8: simulate on a hardware-halted wave (status.halt set) returns
    not-simulated and leaves the wave untouched; a normal return on a
    non-halted wave always reports simulated, and when the instruction
    continues execution the result is the synthesized trap-handler entry:
    ttmp6.wave_stopped set, status.halt set, and the pc moved to the new
    pc, or, for parking architectures, to the park instruction address
    with the new pc saved out of band (recovered by saved_parked_pc). -/
theorem simulate_spec :
    (∀ (w : SimWave) (pc : Nat) (i : Instruction),
      w.mState = .singleStep → gfx9.can_simulate i = true →
      w.reg .status &&& sq_wave_status_halt_mask ≠ 0 →
      gfx9.simulate w pc i = .ok (false, w))
    ∧ (∀ (w : SimWave) (pc : Nat) (i : Instruction) (b : Bool) (w2 : SimWave),
      gfx9.simulate w pc i = .ok (b, w2) →
      w.reg .status &&& sq_wave_status_halt_mask = 0 → b = true)
    ∧ (∀ (w : SimWave) (pc : Nat) (i : Instruction) (w1 : SimWave) (npc : Nat)
        (w2 : SimWave),
      w.reg .status &&& sq_wave_status_halt_mask = 0 →
      gfx9.simulate_instruction w pc i = .ok (w1, some npc) →
      gfx9.simulate w pc i = .ok (true, w2) →
      w2.reg (.ttmp 6) &&& ttmp6_wave_stopped_mask ≠ 0
      ∧ w2.reg .status &&& sq_wave_status_halt_mask ≠ 0
      ∧ (w1.parkStoppedWaves = true →
          w2.pc = w1.parkAddr ∧ gfx9.saved_parked_pc w2 = npc % 2 ^ 48)
      ∧ (w1.parkStoppedWaves = false → w2.pc = npc)) := by
  refine ⟨?_, ?_, ?_⟩
  · intro w pc i hstate hcan hhalt
    unfold gfx9.simulate
    rw [hstate, hcan]
    simp only [bne_self_eq_false, Bool.not_true, Bool.false_eq_true, if_false,
      reduceIte]
    rw [if_pos (by simpa using hhalt)]
  · intro w pc i b w2 hsim hnohalt
    unfold gfx9.simulate at hsim
    by_cases h1 : (w.mState != WaveState.singleStep) = true
    · rw [if_pos h1] at hsim; cases hsim
    · rw [if_neg h1] at hsim
      by_cases h2 : (!gfx9.can_simulate i) = true
      · rw [if_pos h2] at hsim; cases hsim
      · rw [if_neg h2] at hsim
        rw [if_neg (by simpa using hnohalt)] at hsim
        repeat' split at hsim
        all_goals cases hsim
        all_goals rfl
  · intro w pc i w1 npc w2 hnohalt hinstr hsim
    unfold gfx9.simulate at hsim
    by_cases hstate : (w.mState != WaveState.singleStep) = true
    · rw [if_pos hstate] at hsim; cases hsim
    · rw [if_neg hstate] at hsim
      by_cases hcan : (!gfx9.can_simulate i) = true
      · rw [if_pos hcan] at hsim; cases hsim
      · rw [if_neg hcan] at hsim
        rw [if_neg (by simpa using hnohalt)] at hsim
        rw [hinstr] at hsim
        simp only [] at hsim
        -- now hsim matches on simulate_trap_handler w1 npc none
        unfold gfx9.simulate_trap_handler at hsim
        by_cases halign : (npc % minimum_instruction_alignment != 0) = true
        · rw [if_pos halign] at hsim; cases hsim
        · rw [if_neg halign] at hsim
          simp only [] at hsim
          by_cases hpark : w1.parkStoppedWaves = true
          · simp only [hpark, if_true, reduceIte] at hsim
            cases hsim
            refine ⟨?_, ?_, fun _ => ⟨?_, ?_⟩, fun hc => absurd hpark (by simp [hc])⟩
            · simp only [SimWave.setReg, gfx9.save_pc_for_park, reduceCtorEq,
                if_false, Reg.ttmp.injEq, show (6 : Nat) ≠ 11 from by omega,
                show (6 : Nat) ≠ 7 from by omega, reduceIte, if_true]
              split
              · rw [lor3_land_self]; decide
              · rw [lor_land_self]; decide
            · simp only [SimWave.setReg, reduceCtorEq, if_false, reduceIte,
                if_true]
              rw [lor_land_self]; decide
            · rfl
            · unfold gfx9.saved_parked_pc
              simp only [SimWave.setReg, gfx9.save_pc_for_park, reduceCtorEq,
                if_false, Reg.ttmp.injEq, show (11 : Nat) ≠ 7 from by omega,
                show (7 : Nat) ≠ 11 from by omega,
                show (6 : Nat) ≠ 11 from by omega,
                show (6 : Nat) ≠ 7 from by omega, reduceIte, if_true]
              rw [park_field_roundtrip, parked_pc_assemble]
          · simp only [hpark, Bool.false_eq_true, if_false, reduceIte] at hsim
            cases hsim
            refine ⟨?_, ?_, fun hc => absurd hc hpark, fun _ => rfl⟩
            · simp only [SimWave.setReg, reduceCtorEq, if_false, reduceIte,
                if_true]
              split
              · rw [lor3_land_self]; decide
              · rw [lor_land_self]; decide
            · simp only [SimWave.setReg, reduceCtorEq, if_false, reduceIte,
                if_true]
              rw [lor_land_self]; decide

/-- Witness for C8: the halted sample wave is not simulated and is
    returned unchanged. -/
theorem simulate_spec_witness :
    gfx9.simulate halted_wave 4096 sample_branch
      = .ok (false, halted_wave) :=
  simulate_spec.1 halted_wave 4096 sample_branch rfl (by decide) (by decide)


/-- Helper: overwriting one byte of a 64-bit value stays below 2 to the
    64. -/
theorem setByte64_lt (x i b : Nat) (hx : x < 2 ^ 64) (hi : i < 8) :
    setByte64 x i b < 2 ^ 64 := by
  unfold setByte64
  apply Nat.or_lt_two_pow (lt_of_le_of_lt Nat.and_le_left hx)
  rw [Nat.shiftLeft_eq]
  have h1 : b % 256 ≤ 255 := by omega
  have h3 : 2 ^ (8 * i) ≤ 2 ^ 56 :=
    Nat.pow_le_pow_right (by norm_num) (by omega)
  calc (b % 256) * 2 ^ (8 * i) ≤ 255 * 2 ^ 56 := Nat.mul_le_mul h1 h3
    _ < 2 ^ 64 := by norm_num

/-- Helper: an in-bounds memcpy into a 64-bit value stays below 2 to the
    64. -/
theorem memcpy_bytes_lt (value : List Nat) (x offset : Nat)
    (hx : x < 2 ^ 64) (h : offset + value.length ≤ 8) :
    memcpy_bytes x offset value < 2 ^ 64 := by
  induction value generalizing x offset with
  | nil => exact hx
  | cons b rest ih =>
    simp only [memcpy_bytes]
    apply ih
    · exact setByte64_lt x offset b hx
        (by simp only [List.length_cons] at h; omega)
    · simp only [List.length_cons] at h ⊢
      omega

/-- Helper: the zero-flag update pattern of write_pseudo_register leaves
    the designated status bit equal to the zero test. -/
theorem zero_flag_update (s v k : Nat) (hk : k < 32) :
    ((s &&& not32 (1 <<< k)) ||| (if v == 0 then 1 <<< k else 0)).testBit k
      = decide (v = 0) := by
  have hlt : 1 <<< k < 2 ^ 32 := by
    rw [Nat.shiftLeft_eq, Nat.one_mul]
    exact Nat.pow_lt_pow_right (by norm_num) hk
  have hmod : (1 <<< k) % 2 ^ 32 = 1 <<< k := Nat.mod_eq_of_lt hlt
  have hbit : (1 <<< k).testBit k = true := by
    rw [Nat.testBit_shiftLeft]
    simp
  have hnot : (not32 (1 <<< k)).testBit k = false := by
    unfold not32
    rw [hmod, Nat.testBit_xor, Nat.testBit_two_pow_sub_one, hbit]
    simp [hk]
  rw [Nat.testBit_lor, Nat.testBit_land, hnot, Bool.and_false, Bool.false_or]
  by_cases hv : v = 0
  · simp [hv, hbit]
  · simp [hv]

/-- C9: a write to the pseudo EXEC or pseudo VCC register of a 64-lane
    wave stores the merged 64-bit value in the underlying real register
    pair and leaves the status zero flag (execz bit 9, vccz bit 10)
    equal to whether that value is zero. -/
theorem write_pseudo_exec_vcc_spec (w : SimWave) (isExec : Bool)
    (offset : Nat) (value : List Nat)
    (hlen : 1 ≤ value.length) (hbound : offset + value.length ≤ 8)
    (hlanes : w.laneCount = 64)
    (hbase : (if isExec then w.read_exec64 else w.read_vcc64) < 2 ^ 64) :
    ∃ w2, write_pseudo_exec_vcc w isExec offset value = .ok w2
      ∧ (if isExec then w2.read_exec64 else w2.read_vcc64)
          = memcpy_bytes (if isExec then w.read_exec64 else w.read_vcc64)
              offset value
      ∧ (w2.reg .status).testBit (if isExec then 9 else 10)
          = decide (memcpy_bytes
              (if isExec then w.read_exec64 else w.read_vcc64)
              offset value = 0) := by
  have hg1 : ¬ ((value.length == 0
      || decide (offset + value.length > 8)) = true) := by
    simp only [Bool.or_eq_true, beq_iff_eq, decide_eq_true_eq]
    omega
  have hg2 : ¬ ((w.laneCount != 64) = true) := by
    simp [hlanes]
  cases isExec with
  | true =>
    simp only [if_pos rfl] at hbase ⊢
    have hlt : memcpy_bytes w.read_exec64 offset value < 2 ^ 64 :=
      memcpy_bytes_lt value _ offset hbase hbound
    have hrun : write_pseudo_exec_vcc w true offset value
        = .ok ((((w.setReg .status
            ((w.reg .status &&& not32 sq_wave_status_execz_mask)
              ||| (if memcpy_bytes w.read_exec64 offset value == 0 then
                sq_wave_status_execz_mask else 0))).setReg .execLo
              (wrap32 (memcpy_bytes w.read_exec64 offset value))).setReg
              .execHi
              (wrap32 (memcpy_bytes w.read_exec64 offset value >>> 32)))) := by
      unfold write_pseudo_exec_vcc
      rw [if_neg hg1, if_neg hg2]
      rfl
    refine ⟨_, hrun, ?_, ?_⟩
    · have hr : SimWave.read_exec64 (((w.setReg .status
          ((w.reg .status &&& not32 sq_wave_status_execz_mask)
            ||| (if memcpy_bytes w.read_exec64 offset value == 0 then
              sq_wave_status_execz_mask else 0))).setReg .execLo
            (wrap32 (memcpy_bytes w.read_exec64 offset value))).setReg
            .execHi
            (wrap32 (memcpy_bytes w.read_exec64 offset value >>> 32)))
          = wrap32 (memcpy_bytes w.read_exec64 offset value)
            ||| wrap32 (memcpy_bytes w.read_exec64 offset value >>> 32)
              <<< 32 := by
        simp [SimWave.read_exec64, SimWave.setReg]
      rw [hr]
      exact lor_split64 _ hlt
    · have hs : (((w.setReg .status
          ((w.reg .status &&& not32 sq_wave_status_execz_mask)
            ||| (if memcpy_bytes w.read_exec64 offset value == 0 then
              sq_wave_status_execz_mask else 0))).setReg .execLo
            (wrap32 (memcpy_bytes w.read_exec64 offset value))).setReg
            .execHi
            (wrap32 (memcpy_bytes w.read_exec64 offset value >>> 32))).reg
            .status
          = (w.reg .status &&& not32 sq_wave_status_execz_mask)
            ||| (if memcpy_bytes w.read_exec64 offset value == 0 then
              sq_wave_status_execz_mask else 0) := by
        simp [SimWave.setReg]
      rw [hs]
      have hm : sq_wave_status_execz_mask = 1 <<< 9 := rfl
      rw [hm]
      exact zero_flag_update _ _ 9 (by norm_num)
  | false =>
    simp only [if_neg (by simp : ¬ (false = true))] at hbase ⊢
    have hlt : memcpy_bytes w.read_vcc64 offset value < 2 ^ 64 :=
      memcpy_bytes_lt value _ offset hbase hbound
    have hrun : write_pseudo_exec_vcc w false offset value
        = .ok ((((w.setReg .status
            ((w.reg .status &&& not32 sq_wave_status_vccz_mask)
              ||| (if memcpy_bytes w.read_vcc64 offset value == 0 then
                sq_wave_status_vccz_mask else 0))).setReg .vccLo
              (wrap32 (memcpy_bytes w.read_vcc64 offset value))).setReg
              .vccHi
              (wrap32 (memcpy_bytes w.read_vcc64 offset value >>> 32)))) := by
      unfold write_pseudo_exec_vcc
      rw [if_neg hg1, if_neg hg2]
      rfl
    refine ⟨_, hrun, ?_, ?_⟩
    · have hr : SimWave.read_vcc64 (((w.setReg .status
          ((w.reg .status &&& not32 sq_wave_status_vccz_mask)
            ||| (if memcpy_bytes w.read_vcc64 offset value == 0 then
              sq_wave_status_vccz_mask else 0))).setReg .vccLo
            (wrap32 (memcpy_bytes w.read_vcc64 offset value))).setReg
            .vccHi
            (wrap32 (memcpy_bytes w.read_vcc64 offset value >>> 32)))
          = wrap32 (memcpy_bytes w.read_vcc64 offset value)
            ||| wrap32 (memcpy_bytes w.read_vcc64 offset value >>> 32)
              <<< 32 := by
        simp [SimWave.read_vcc64, SimWave.setReg]
      rw [hr]
      exact lor_split64 _ hlt
    · have hs : (((w.setReg .status
          ((w.reg .status &&& not32 sq_wave_status_vccz_mask)
            ||| (if memcpy_bytes w.read_vcc64 offset value == 0 then
              sq_wave_status_vccz_mask else 0))).setReg .vccLo
            (wrap32 (memcpy_bytes w.read_vcc64 offset value))).setReg
            .vccHi
            (wrap32 (memcpy_bytes w.read_vcc64 offset value >>> 32))).reg
            .status
          = (w.reg .status &&& not32 sq_wave_status_vccz_mask)
            ||| (if memcpy_bytes w.read_vcc64 offset value == 0 then
              sq_wave_status_vccz_mask else 0) := by
        simp [SimWave.setReg]
      rw [hs]
      have hm : sq_wave_status_vccz_mask = 1 <<< 10 := rfl
      rw [hm]
      exact zero_flag_update _ _ 10 (by norm_num)

/-- Witness for C9: the pseudo EXEC write of one byte 5 on the sample
    wave. -/
theorem write_pseudo_exec_vcc_spec_witness :
    1 ≤ ([5] : List Nat).length ∧ (0 : Nat) + ([5] : List Nat).length ≤ 8
    ∧ sample_wave.laneCount = 64
    ∧ (if true then sample_wave.read_exec64 else sample_wave.read_vcc64)
        < 2 ^ 64
    ∧ ∃ w2, write_pseudo_exec_vcc sample_wave true 0 [5] = .ok w2
      ∧ (if true then w2.read_exec64 else w2.read_vcc64)
          = memcpy_bytes
              (if true then sample_wave.read_exec64
               else sample_wave.read_vcc64) 0 [5]
      ∧ (w2.reg .status).testBit (if true then 9 else 10)
          = decide (memcpy_bytes
              (if true then sample_wave.read_exec64
               else sample_wave.read_vcc64) 0 [5] = 0) :=
  ⟨by decide, by decide, by decide, by decide,
    write_pseudo_exec_vcc_spec sample_wave true 0 [5] (by decide) (by decide)
      (by decide) (by decide)⟩

/-- C10: after parking a stopped wave, the save-area pc slot holds the
    park instruction address and keeps holding it across client pc reads
    and writes, which are served from the parked-pc shadow; the
    park/unpark pair restores the visible pc to its pre-park value. -/
theorem parked_pc_shadowing (w : DbgWave) (v : Nat)
    (hstop : w.state = .stop) (hnp : w.mIsParked = false) :
    ∃ wp, w.park = .ok wp
      ∧ wp.mIsParked = true
      ∧ wp.hw.pc = w.hw.parkAddr
      ∧ wp.readPc = w.hw.pc
      ∧ (wp.writePc v).hw.pc = w.hw.parkAddr
      ∧ (wp.writePc v).readPc = v
      ∧ ∃ wu, DbgWave.unpark
            { wp with hw := { wp.hw with mState := .run } } = .ok wu
          ∧ wu.mIsParked = false
          ∧ wu.readPc = w.hw.pc
          ∧ wu.hw.pc = w.hw.pc := by
  have hpark : w.park = .ok { w with
      mParkedPc := w.hw.pc
      hw := { w.hw with pc := w.hw.parkAddr }
      mIsParked := true } := by
    simp [DbgWave.park, DbgWave.readPc, DbgWave.writePc, hstop, hnp]
  exact ⟨_, hpark, rfl, rfl, rfl, rfl, rfl, _, rfl, rfl, rfl, rfl⟩

/-- Witness for C10: parking and unparking the concrete stopped wave. -/
theorem parked_pc_shadowing_witness :
    sample_stopped_unparked.state = .stop
    ∧ sample_stopped_unparked.mIsParked = false
    ∧ ∃ wp, sample_stopped_unparked.park = .ok wp
      ∧ wp.mIsParked = true
      ∧ wp.hw.pc = sample_stopped_unparked.hw.parkAddr
      ∧ wp.readPc = sample_stopped_unparked.hw.pc
      ∧ (wp.writePc 5).hw.pc = sample_stopped_unparked.hw.parkAddr
      ∧ (wp.writePc 5).readPc = 5
      ∧ ∃ wu, DbgWave.unpark
            { wp with hw := { wp.hw with mState := .run } } = .ok wu
          ∧ wu.mIsParked = false
          ∧ wu.readPc = sample_stopped_unparked.hw.pc
          ∧ wu.hw.pc = sample_stopped_unparked.hw.pc :=
  ⟨by decide, by decide,
    parked_pc_shadowing sample_stopped_unparked 5 (by decide) (by decide)⟩

/-- Helper: bitwise and distributes over or. -/
theorem lor_land_distrib (a b m : Nat) :
    (a ||| b) &&& m = (a &&& m) ||| (b &&& m) := by
  apply Nat.eq_of_testBit_eq
  intro j
  rw [Nat.testBit_lor, Nat.testBit_land, Nat.testBit_lor,
    Nat.testBit_land, Nat.testBit_land]
  cases a.testBit j <;> cases b.testBit j <;> cases m.testBit j <;> rfl

/-- Helper: a guarded mask distributes its and. -/
theorem land_ite (c : Prop) [Decidable c] (a b m : Nat) :
    (if c then a else b) &&& m = if c then a &&& m else b &&& m := by
  split <;> rfl

/-- Helper: bits absent under a mask are absent under any of the
    submasks of that mask. -/
theorem land_zero_mono {x m b : Nat} (h : x &&& m = 0) (hb : b &&& m = b) :
    x &&& b = 0 := by
  apply Nat.eq_of_testBit_eq
  intro j
  have hj := congrArg (fun t => Nat.testBit t j) h
  have hbj := congrArg (fun t => Nat.testBit t j) hb
  simp only [Nat.testBit_land, Nat.zero_testBit] at hj hbj ⊢
  cases hx : x.testBit j <;> cases hm : m.testBit j <;>
    cases hbb : b.testBit j <;> simp_all

/-- Helper: clearing a set of bits disjoint from a window leaves the
    window intact. -/
theorem land_not32_preserves {t cm F : Nat} (hcm : cm &&& F = 0)
    (hF : F < 2 ^ 32) : (t &&& not32 cm) &&& F = t &&& F := by
  apply Nat.eq_of_testBit_eq
  intro j
  have hcmj : (cm.testBit j && F.testBit j) = false := by
    have := congrArg (fun t => Nat.testBit t j) hcm
    simpa [Nat.testBit_land] using this
  by_cases hj : j < 32
  · have hnotj : (not32 cm).testBit j
        = (decide (j < 32) ^^ (decide (j < 32) && cm.testBit j)) := by
      unfold not32
      rw [Nat.testBit_xor, Nat.testBit_two_pow_sub_one,
        Nat.testBit_mod_two_pow]
    rw [Nat.testBit_land, Nat.testBit_land, Nat.testBit_land, hnotj]
    have hd : decide (j < 32) = true := by simpa using hj
    rw [hd]
    cases ht : t.testBit j <;> cases hc : cm.testBit j <;>
      cases hf : F.testBit j <;> simp_all
  · have hFj : F.testBit j = false :=
      Nat.testBit_lt_two_pow (lt_of_lt_of_le hF
        (Nat.pow_le_pow_right (by norm_num) (by omega)))
    simp [Nat.testBit_land, hFj]

/-- Helper: clear_stop_reasons for a resumable stop reason never requests
    the mem_viol or illegal_inst exception classes. -/
theorem clear_exceptions_no_fatal (sr : Nat)
    (hres : sr &&& not32 resumable_stop_reason_mask = 0) :
    clear_stop_reasons_exceptions sr
      &&& (exception_mask.mem_viol ||| exception_mask.illegal_inst) = 0 := by
  have h1 : sr &&& stop_reason_memory_violation = 0 :=
    land_zero_mono hres (by decide)
  have h2 : sr &&& stop_reason_address_error = 0 :=
    land_zero_mono hres (by decide)
  have h3 : sr &&& stop_reason_illegal_instruction = 0 :=
    land_zero_mono hres (by decide)
  unfold clear_stop_reasons_exceptions
  simp [lor_land_distrib, land_ite, h1, h2, h3,
    exception_mask.wave_begin, exception_mask.wave_end,
    exception_mask.mem_viol, exception_mask.xnack_error,
    exception_mask.illegal_inst, exception_mask.invalid,
    exception_mask.input_denorm, exception_mask.float_div0,
    exception_mask.overflow, exception_mask.underflow,
    exception_mask.inexact, exception_mask.int_div0,
    exception_mask.addr_watch0, exception_mask.addr_watch1,
    exception_mask.addr_watch2, exception_mask.addr_watch3,
    exception_mask.trap_after_inst,
    (show (49152 : Nat) &&& 384 = 0 by decide),
    (show (2 : Nat) &&& 384 = 0 by decide),
    (show (4 : Nat) &&& 384 = 0 by decide),
    (show (8 : Nat) &&& 384 = 0 by decide),
    (show (16 : Nat) &&& 384 = 0 by decide),
    (show (32 : Nat) &&& 384 = 0 by decide),
    (show (64 : Nat) &&& 384 = 0 by decide),
    (show (7680 : Nat) &&& 384 = 0 by decide),
    (show (65536 : Nat) &&& 384 = 0 by decide)]

/-- Helper: convert_mask never produces the fatal trapsts bits when the
    mem_viol and illegal_inst exception classes are absent. -/
theorem convert_mask_no_fatal (m : Nat)
    (hmv : m &&& exception_mask.mem_viol = 0)
    (hil : m &&& exception_mask.illegal_inst = 0) :
    convert_mask m &&& (sq_wave_trapsts_excp_mem_viol_mask
      ||| sq_wave_trapsts_illegal_inst_mask
      ||| sq_wave_trapsts_xnack_error_mask) = 0 := by
  unfold convert_mask
  simp [lor_land_distrib, land_ite, hmv, hil,
    sq_wave_trapsts_excp_invalid_mask,
    sq_wave_trapsts_excp_input_denorm_mask,
    sq_wave_trapsts_excp_div0_mask, sq_wave_trapsts_excp_overflow_mask,
    sq_wave_trapsts_excp_underflow_mask,
    sq_wave_trapsts_excp_int_div0_mask,
    sq_wave_trapsts_excp_mem_viol_mask, sq_wave_trapsts_illegal_inst_mask,
    sq_wave_trapsts_excp_addr_watch0_mask,
    sq_wave_trapsts_excp_hi_addr_watch1_mask,
    sq_wave_trapsts_excp_hi_addr_watch2_mask,
    sq_wave_trapsts_excp_hi_addr_watch3_mask,
    sq_wave_trapsts_xnack_error_mask,
    (show (2 : Nat) &&& 268437760 = 0 by decide),
    (show (4 : Nat) &&& 268437760 = 0 by decide),
    (show (8 : Nat) &&& 268437760 = 0 by decide),
    (show (16 : Nat) &&& 268437760 = 0 by decide),
    (show (64 : Nat) &&& 268437760 = 0 by decide),
    (show (128 : Nat) &&& 268437760 = 0 by decide),
    (show (4096 : Nat) &&& 268437760 = 0 by decide),
    (show (8192 : Nat) &&& 268437760 = 0 by decide),
    (show (16384 : Nat) &&& 268437760 = 0 by decide)]

/-- C6: resuming a stopped wave with a reported resumable stop reason
    clears exactly the trapsts exception bits converted from the reported
    reasons; the cleared set never contains the fatal mem_viol,
    illegal_inst or xnack_error trapsts bits, so those are preserved, and
    a resume request with a fatal stop reason pending is rejected by the
    wave_t::set_state assert. -/
theorem wave_set_state_resume_spec (w : DbgWave) (s : WaveState)
    (hstop : w.state = .stop) (hs : s ≠ .stop)
    (hsr : w.mStopReason ≠ 0)
    (hres : w.mStopReason &&& not32 resumable_stop_reason_mask = 0)
    (hdisp : w.mDisplaced = false) :
    ((wave_set_state w s).hw.reg .trapsts
        = w.hw.reg .trapsts &&& not32 (convert_mask
            (clear_stop_reasons_exceptions w.mStopReason)))
    ∧ (convert_mask (clear_stop_reasons_exceptions w.mStopReason)
        &&& (sq_wave_trapsts_excp_mem_viol_mask
          ||| sq_wave_trapsts_illegal_inst_mask
          ||| sq_wave_trapsts_xnack_error_mask) = 0)
    ∧ ((wave_set_state w s).hw.reg .trapsts
        &&& (sq_wave_trapsts_excp_mem_viol_mask
          ||| sq_wave_trapsts_illegal_inst_mask
          ||| sq_wave_trapsts_xnack_error_mask)
        = w.hw.reg .trapsts
          &&& (sq_wave_trapsts_excp_mem_viol_mask
            ||| sq_wave_trapsts_illegal_inst_mask
            ||| sq_wave_trapsts_xnack_error_mask))
    ∧ (∀ sr2, sr2 &&& not32 resumable_stop_reason_mask ≠ 0 →
        set_state { w with mStopReason := sr2 } s
          = .error "assert: cannot resume a wave with fatal exceptions") := by
  have hnf := clear_exceptions_no_fatal w.mStopReason hres
  have hmv : clear_stop_reasons_exceptions w.mStopReason
      &&& exception_mask.mem_viol = 0 :=
    land_zero_mono hnf (by decide)
  have hil : clear_stop_reasons_exceptions w.mStopReason
      &&& exception_mask.illegal_inst = 0 :=
    land_zero_mono hnf (by decide)
  have hb := convert_mask_no_fatal _ hmv hil
  have ha : (wave_set_state w s).hw.reg .trapsts
      = w.hw.reg .trapsts &&& not32 (convert_mask
          (clear_stop_reasons_exceptions w.mStopReason)) := by
    unfold wave_set_state
    simp only []
    rw [if_pos ⟨hs, hstop, hsr⟩]
    simp [clear_stop_reasons, set_exceptions, SimWave.setReg,
      (show convert_mask 0 = 0 by decide)]
  refine ⟨ha, hb, ?_, ?_⟩
  · rw [ha]
    exact land_not32_preserves hb (by decide)
  · intro sr2 hfat
    unfold set_state
    rw [if_neg (fun h => hs (h.trans hstop)),
      if_neg (fun h => by
        rw [hdisp] at h
        exact (Bool.false_ne_true h.1)),
      if_pos ⟨hs, hfat⟩]

/-- Witness for C6: resuming the concrete stopped wave whose reported
    stop reason is a breakpoint. -/
theorem wave_set_state_resume_spec_witness :
    sample_dbg_wave.state = .stop ∧ WaveState.run ≠ .stop
    ∧ sample_dbg_wave.mStopReason ≠ 0
    ∧ sample_dbg_wave.mStopReason &&& not32 resumable_stop_reason_mask = 0
    ∧ sample_dbg_wave.mDisplaced = false
    ∧ (((wave_set_state sample_dbg_wave .run).hw.reg .trapsts
        = sample_dbg_wave.hw.reg .trapsts &&& not32 (convert_mask
            (clear_stop_reasons_exceptions sample_dbg_wave.mStopReason)))
    ∧ (convert_mask (clear_stop_reasons_exceptions
          sample_dbg_wave.mStopReason)
        &&& (sq_wave_trapsts_excp_mem_viol_mask
          ||| sq_wave_trapsts_illegal_inst_mask
          ||| sq_wave_trapsts_xnack_error_mask) = 0)
    ∧ (((wave_set_state sample_dbg_wave .run).hw.reg .trapsts
        &&& (sq_wave_trapsts_excp_mem_viol_mask
          ||| sq_wave_trapsts_illegal_inst_mask
          ||| sq_wave_trapsts_xnack_error_mask))
        = sample_dbg_wave.hw.reg .trapsts
          &&& (sq_wave_trapsts_excp_mem_viol_mask
            ||| sq_wave_trapsts_illegal_inst_mask
            ||| sq_wave_trapsts_xnack_error_mask))
    ∧ (∀ sr2, sr2 &&& not32 resumable_stop_reason_mask ≠ 0 →
        set_state { sample_dbg_wave with mStopReason := sr2 } .run
          = .error "assert: cannot resume a wave with fatal exceptions")) :=
  ⟨by decide, by decide, by decide, by decide, by decide,
    wave_set_state_resume_spec sample_dbg_wave .run (by decide) (by decide)
      (by decide) (by decide) (by decide)⟩

/-- C5: for a single-stepping gfx9 wave that has newly entered the trap
    handler (wave-stopped latch set): a pc that moved away from the
    last-stopped pc always adds the single-step stop reason; an unmoved
    pc with no other stop reason silently resumes single-stepping when
    the instruction at pc is accessible and sequential, and otherwise
    reports a best-effort single-step stop; with another stop reason
    present the decoded stop reason is returned unchanged. -/
theorem gfx9_wave_get_state_spurious (w : DbgWave)
    (hss : w.state = .singleStep)
    (hlatch : w.hw.reg (.ttmp 6) &&& ttmp6_wave_stopped_mask ≠ 0)
    (hchae : w.canHaltAtEndpgm = false) :
    let w1 := w.writePc (gfx9.saved_parked_pc w.hw)
    let sr := amdgcn_exception_stop_reason w1.hw (w.hw.reg (.ttmp 6))
    (w1.readPc ≠ w1.mLastStoppedPc →
        gfx9_wave_get_state w = (w1, .stop, sr ||| stop_reason_single_step))
    ∧ (w1.readPc = w1.mLastStoppedPc → sr = 0 →
        ∀ i, w1.instMem w1.readPc = some i → gfx9.is_sequential i = true →
          gfx9_wave_get_state w
            = (wave_set_state w1 .singleStep, .singleStep, 0))
    ∧ (w1.readPc = w1.mLastStoppedPc → sr = 0 →
        (match w1.instMem w1.readPc with
         | some i => gfx9.is_sequential i
         | none => false) = false →
        gfx9_wave_get_state w
          = (w1, .stop, sr ||| stop_reason_single_step))
    ∧ (w1.readPc = w1.mLastStoppedPc → sr ≠ 0 →
        gfx9_wave_get_state w = (w1, .stop, sr)) := by
  intro w1 sr
  have hr : amdgcn_wave_get_state w = (w1, .stop, sr) := by
    unfold amdgcn_wave_get_state
    rw [if_neg hlatch, if_neg (by rw [hss]; simp), if_pos hchae]
  have hcond : ¬ (w.state ≠ WaveState.singleStep
      ∨ (w1, WaveState.stop, sr).2.1 ≠ WaveState.stop) := by
    rw [hss]
    simp
  refine ⟨?_, ?_, ?_, ?_⟩
  · intro hne
    unfold gfx9_wave_get_state
    rw [hr, if_neg hcond]
    simp only []
    rw [if_pos hne]
  · intro heq hsr0 i hi hseq
    unfold gfx9_wave_get_state
    rw [hr, if_neg hcond]
    simp only []
    rw [if_neg (fun h => h heq), if_pos hsr0, DbgWave.instruction_at_pc,
      hi]
    simp only [hseq]
    rfl
  · intro heq hsr0 hnoseq
    unfold gfx9_wave_get_state
    rw [hr, if_neg hcond]
    simp only []
    rw [if_neg (fun h => h heq), if_pos hsr0, DbgWave.instruction_at_pc]
    cases hi : w1.instMem w1.readPc with
    | none => rfl
    | some i =>
      rw [hi] at hnoseq
      simp only [] at hnoseq
      simp only []
      rw [if_neg (by simp [hnoseq])]
  · intro heq hsrne
    unfold gfx9_wave_get_state
    rw [hr, if_neg hcond]
    simp only []
    rw [if_neg (fun h => h heq), if_neg hsrne]

/-- Witness for C5: the concrete single-stepping wave with a clean
    trapsts, an unmoved pc and a sequential s_nop at the pc. -/
theorem gfx9_wave_get_state_spurious_witness :
    sample_ss_wave.state = .singleStep
    ∧ sample_ss_wave.hw.reg (.ttmp 6) &&& ttmp6_wave_stopped_mask ≠ 0
    ∧ sample_ss_wave.canHaltAtEndpgm = false
    ∧ (let w1 := sample_ss_wave.writePc
          (gfx9.saved_parked_pc sample_ss_wave.hw)
       let sr := amdgcn_exception_stop_reason w1.hw
          (sample_ss_wave.hw.reg (.ttmp 6))
       (w1.readPc ≠ w1.mLastStoppedPc →
          gfx9_wave_get_state sample_ss_wave
            = (w1, .stop, sr ||| stop_reason_single_step))
       ∧ (w1.readPc = w1.mLastStoppedPc → sr = 0 →
          ∀ i, w1.instMem w1.readPc = some i → gfx9.is_sequential i = true →
            gfx9_wave_get_state sample_ss_wave
              = (wave_set_state w1 .singleStep, .singleStep, 0))
       ∧ (w1.readPc = w1.mLastStoppedPc → sr = 0 →
          (match w1.instMem w1.readPc with
           | some i => gfx9.is_sequential i
           | none => false) = false →
          gfx9_wave_get_state sample_ss_wave
            = (w1, .stop, sr ||| stop_reason_single_step))
       ∧ (w1.readPc = w1.mLastStoppedPc → sr ≠ 0 →
          gfx9_wave_get_state sample_ss_wave = (w1, .stop, sr))) :=
  ⟨by decide, by decide, by decide,
    gfx9_wave_get_state_spurious sample_ss_wave (by decide) (by decide)
      (by decide)⟩

/-- C2: the wave state machine accepts exactly the identity transition
    and the transitions into or out of the stop state; a direct
    transition between run and single-step is rejected as a programming
    error (on this parking architecture the unpark assert fires, the
    wave being unparked because it was not stopped). -/
theorem set_state_transitions (w : DbgWave) (s : WaveState)
    (hdisp : w.mDisplaced = false)
    (hvis : w.visible = true)
    (hfatal : w.mStopReason &&& not32 resumable_stop_reason_mask = 0)
    (hp1 : w.state = .stop → w.mIsParked = true)
    (hp2 : w.state ≠ .stop → w.mIsParked = false)
    (hchae : w.canHaltAtEndpgm = false)
    (hend : inst_is_endpgm w.instruction_at_pc = false) :
    ((∃ w2, set_state w s = .ok w2)
      ↔ (s = w.state ∨ w.state = .stop ∨ s = .stop))
    ∧ (s ≠ w.state → w.state ≠ .stop → s ≠ .stop →
        set_state w s = .error "assert: not parked") := by
  cases hws : w.state with
  | stop =>
    have hpk : w.mIsParked = true := hp1 hws
    have hws2 : w.hw.mState = WaveState.stop := hws
    have hend2 : inst_is_endpgm (w.instMem w.mParkedPc) = false := by
      simpa [DbgWave.instruction_at_pc, DbgWave.readPc, hpk] using hend
    cases s with
    | run =>
      refine ⟨?_, fun h1 h2 h3 => absurd rfl h2⟩
      simp [set_state, set_state_tail, wave_set_state, DbgWave.park,
        DbgWave.unpark, DbgWave.state, DbgWave.readPc, DbgWave.writePc,
        DbgWave.instruction_at_pc, hws2, hdisp, hfatal, hpk, hchae, hvis,
        hend2]
    | singleStep =>
      refine ⟨?_, fun h1 h2 h3 => absurd rfl h2⟩
      simp [set_state, set_state_tail, wave_set_state, DbgWave.park,
        DbgWave.unpark, DbgWave.state, DbgWave.readPc, DbgWave.writePc,
        DbgWave.instruction_at_pc, hws2, hdisp, hfatal, hpk, hchae, hvis,
        hend2]
    | stop =>
      refine ⟨?_, fun h1 h2 h3 => absurd rfl h1⟩
      simp [set_state, DbgWave.state, hws2]
  | run =>
    have hnp : w.mIsParked = false := hp2 (by rw [hws]; simp)
    have hws2 : w.hw.mState = WaveState.run := hws
    have hend3 : inst_is_endpgm (w.instMem w.hw.pc) = false := by
      simpa [DbgWave.instruction_at_pc, DbgWave.readPc, hnp] using hend
    cases s with
    | run =>
      refine ⟨?_, fun h1 h2 h3 => absurd rfl h1⟩
      simp [set_state, DbgWave.state, hws2]
    | singleStep =>
      constructor
      · constructor
        · intro hex
          rcases hex with ⟨w2, hw2⟩
          simp [set_state, set_state_tail, wave_set_state, DbgWave.park,
            DbgWave.unpark, DbgWave.state, DbgWave.readPc, DbgWave.writePc,
            DbgWave.instruction_at_pc, hws2, hdisp, hfatal, hnp, hchae,
            hvis, hend3] at hw2
        · intro hor
          simp at hor
      · intro h1 h2 h3
        simp [set_state, set_state_tail, wave_set_state, DbgWave.park,
          DbgWave.unpark, DbgWave.state, DbgWave.readPc, DbgWave.writePc,
          DbgWave.instruction_at_pc, hws2, hdisp, hfatal, hnp, hchae,
          hvis, hend3]
    | stop =>
      refine ⟨?_, fun h1 h2 h3 => absurd rfl h3⟩
      simp [set_state, set_state_tail, wave_set_state, DbgWave.park,
        DbgWave.unpark, DbgWave.state, DbgWave.readPc, DbgWave.writePc,
        DbgWave.instruction_at_pc, hws2, hdisp, hfatal, hnp, hchae, hvis,
        hend3]
  | singleStep =>
    have hnp : w.mIsParked = false := hp2 (by rw [hws]; simp)
    have hws2 : w.hw.mState = WaveState.singleStep := hws
    have hend3 : inst_is_endpgm (w.instMem w.hw.pc) = false := by
      simpa [DbgWave.instruction_at_pc, DbgWave.readPc, hnp] using hend
    cases s with
    | run =>
      constructor
      · constructor
        · intro hex
          rcases hex with ⟨w2, hw2⟩
          simp [set_state, set_state_tail, wave_set_state, DbgWave.park,
            DbgWave.unpark, DbgWave.state, DbgWave.readPc, DbgWave.writePc,
            DbgWave.instruction_at_pc, hws2, hdisp, hfatal, hnp, hchae,
            hvis, hend3] at hw2
        · intro hor
          simp at hor
      · intro h1 h2 h3
        simp [set_state, set_state_tail, wave_set_state, DbgWave.park,
          DbgWave.unpark, DbgWave.state, DbgWave.readPc, DbgWave.writePc,
          DbgWave.instruction_at_pc, hws2, hdisp, hfatal, hnp, hchae,
          hvis, hend3]
    | singleStep =>
      refine ⟨?_, fun h1 h2 h3 => absurd rfl h1⟩
      simp [set_state, DbgWave.state, hws2]
    | stop =>
      refine ⟨?_, fun h1 h2 h3 => absurd rfl h3⟩
      simp [set_state, set_state_tail, wave_set_state, DbgWave.park,
        DbgWave.unpark, DbgWave.state, DbgWave.readPc, DbgWave.writePc,
        DbgWave.instruction_at_pc, hws2, hdisp, hfatal, hnp, hchae, hvis,
        hend3]

/-- Witness for C2: resuming the concrete stopped and parked wave into
    single-step mode. -/
theorem set_state_transitions_witness :
    sample_dbg_wave.mDisplaced = false
    ∧ sample_dbg_wave.visible = true
    ∧ sample_dbg_wave.mStopReason &&& not32 resumable_stop_reason_mask = 0
    ∧ (sample_dbg_wave.state = .stop → sample_dbg_wave.mIsParked = true)
    ∧ (sample_dbg_wave.state ≠ .stop → sample_dbg_wave.mIsParked = false)
    ∧ sample_dbg_wave.canHaltAtEndpgm = false
    ∧ inst_is_endpgm sample_dbg_wave.instruction_at_pc = false
    ∧ (((∃ w2, set_state sample_dbg_wave .singleStep = .ok w2)
        ↔ (WaveState.singleStep = sample_dbg_wave.state
            ∨ sample_dbg_wave.state = .stop
            ∨ WaveState.singleStep = .stop))
      ∧ (WaveState.singleStep ≠ sample_dbg_wave.state →
          sample_dbg_wave.state ≠ .stop → WaveState.singleStep ≠ .stop →
          set_state sample_dbg_wave .singleStep
            = .error "assert: not parked")) :=
  ⟨by decide, by decide, by decide, by decide, by decide, by decide,
    by decide,
    set_state_transitions sample_dbg_wave .singleStep (by decide)
      (by decide) (by decide) (by decide) (by decide) (by decide)
      (by decide)⟩

end ROCdbgapi
